import Mathlib

/-!
# SPLogger: a shallow embedding

The process-wide logger of `SPLogger.cpp` is embedded as explicit state passing over a
`World` that holds the global `logger` pointer, the text held by every stream and the list
of streams opened by `fopen`.  The outcome of `malloc`, `fopen` and of every `fprintf` is
decided by the environment and is passed to each operation as an argument.
-/

namespace SPLogger

/-- Modelled from the spec: the header `SPLogger.h` that declares this enum is not among the
sources; the constructors are the seven result codes of section 7 of the specification, under
the names the source file uses for them. -/
inductive SP_LOGGER_MSG
  | SP_LOGGER_OUT_OF_MEMORY
  | SP_LOGGER_CANNOT_OPEN_FILE
  | SP_LOGGER_INVAlID_ARGUMENT
  | SP_LOGGER_DEFINED
  | SP_LOGGER_UNDIFINED
  | SP_LOGGER_WRITE_FAIL
  | SP_LOGGER_SUCCESS
  deriving DecidableEq

/-- Modelled from the spec: the header `SPLogger.h` that declares this enum is not among the
sources; the level is a closed set of four values, ordered from the strictest (errors only)
to the most permissive (debug and everything above). -/
inductive SP_LOGGER_LEVEL
  | SP_LOGGER_ERROR_LEVEL
  | SP_LOGGER_WARNING_ERROR_LEVEL
  | SP_LOGGER_INFO_WARNING_ERROR_LEVEL
  | SP_LOGGER_DEBUG_INFO_WARNING_ERROR_LEVEL
  deriving DecidableEq

/-- Modelled from the spec: the integer value of each enumerator of `SP_LOGGER_LEVEL`, in the
order the specification gives (strictest first); the source compares levels with `>=`. -/
def SP_LOGGER_LEVEL.toInt : SP_LOGGER_LEVEL → Int
  | .SP_LOGGER_ERROR_LEVEL => 1
  | .SP_LOGGER_WARNING_ERROR_LEVEL => 2
  | .SP_LOGGER_INFO_WARNING_ERROR_LEVEL => 3
  | .SP_LOGGER_DEBUG_INFO_WARNING_ERROR_LEVEL => 4

/-- The enum `sp_logger_msg_type_t` (lines 31-37). -/
inductive SP_LOGGER_MSG_TYPE
  | SP_LOGGER_ERROR_MSG
  | SP_LOGGER_WARNING_MSG
  | SP_LOGGER_INFO_MSG
  | SP_LOGGER_DEBUG_MSG
  | SP_LOGGER_NO_TITLE_MSG
  deriving DecidableEq

/-- A `FILE*` that is not `NULL`: the standard output stream, or the stream of a file opened
by `fopen`, identified by its path. -/
inductive FILE
  | stdout
  | file (path : String)
  deriving DecidableEq

/-- The struct `sp_logger_t` (lines 25-29). -/
structure sp_logger_t where
  outputChannel : FILE
  isStdOut : Bool
  level : SP_LOGGER_LEVEL
  deriving DecidableEq

/-- The state the logger code runs in: the global variable `logger` (`none` is `NULL`), the
text each stream holds, and the streams that `fopen` returned and `fclose` has not closed. -/
structure World where
  logger : Option sp_logger_t
  content : FILE → String
  opened : List FILE

/-- The state at program start: `logger = NULL` (line 23), nothing written, nothing opened. -/
def World.start : World := ⟨none, fun _ => "", []⟩

/-- The world after `text` has been written at the end of `stream`. -/
def World.append (w : World) (stream : FILE) (text : String) : World :=
  { w with content := Function.update w.content stream (w.content stream ++ text) }

/-- The constant `EOF` of `stdio.h`. -/
def EOF : Int := -1

/-- The library call `fopen(filename, "wb")`: when the environment lets it succeed (`ok`), the
file is created or truncated and its stream is returned; otherwise `NULL` is returned. -/
def fopen (ok : Bool) (w : World) (filename : String) : Option FILE × World :=
  if ok then
    (some (FILE.file filename),
      { w with content := Function.update w.content (FILE.file filename) "",
               opened := FILE.file filename :: w.opened })
  else (none, w)

/-- The library call `fclose(stream)`. -/
def fclose (w : World) (stream : FILE) : World :=
  { w with opened := w.opened.erase stream }

/-- The outcome the environment gives to one call of `fprintf`: the write succeeds, or it
fails after the first `sent` characters of its text have already been transmitted to the
stream (none of them when `sent = 0`). -/
inductive WriteOutcome
  | ok
  | failed (sent : Nat)
  deriving DecidableEq

/-- The first `sent` characters of `text`: what a write that fails has already transmitted. -/
def sentPart (text : String) (sent : Nat) : String :=
  ⟨text.data.take sent⟩

/-- The library call `fprintf(stream, ...)` whose expanded format is `text`.  The list `wr`
holds the outcomes the environment has chosen for the coming writes.  A write that succeeds
appends `text` and returns the number of bytes written; a write that fails returns `EOF`,
and the stream keeps the part of `text` that had been transmitted before the failure.  When
the list is used up every further write succeeds. -/
def fprintf (wr : List WriteOutcome) (w : World) (stream : FILE) (text : String) :
    Int × List WriteOutcome × World :=
  match wr with
  | .failed sent :: rest => (EOF, rest, w.append stream (sentPart text sent))
  | .ok :: rest => ((text.utf8ByteSize : Int), rest, w.append stream text)
  | [] => ((text.utf8ByteSize : Int), [], w.append stream text)

/-- The conversion `%d` of `fprintf` applied to an `int`. -/
def fmtD (n : Int) : String :=
  if n < 0 then "-" ++ Nat.repr n.natAbs else Nat.repr n.toNat

/-- The conversion `%s` of `fprintf`; for a null pointer the C library prints `(null)`. -/
def fmtS (s : Option String) : String :=
  s.getD "(null)"

def SP_LOGGER_ERROR_MSG_TITLE : String := "---ERROR---"
def SP_LOGGER_WARNING_MSG_TITLE : String := "---WARNING---"
def SP_LOGGER_INFO_MSG_TITLE : String := "---INFO---"
def SP_LOGGER_DEBUG_MSG_TITLE : String := "---DEBUG---"

def SP_LOGGER_MSG_FILE_SECTION : String := "- file:"
def SP_LOGGER_MSG_FUNC_SECTION : String := "- function:"
def SP_LOGGER_MSG_LINE_SECTION : String := "- line:"
def SP_LOGGER_MSG_MSG_SECTION : String := "- message:"

/-- Lines 39-61.  `mallocOk` and `fopenOk` are the outcomes the environment gives to the
calls of `malloc` and `fopen`. -/
def spLoggerCreate (mallocOk fopenOk : Bool) (w : World) (filename : Option String)
    (level : SP_LOGGER_LEVEL) : SP_LOGGER_MSG × World :=
  match w.logger with
  | some _ => (.SP_LOGGER_DEFINED, w)
  | none =>
    if !mallocOk then (.SP_LOGGER_OUT_OF_MEMORY, w)
    else
      match filename with
      | none => (.SP_LOGGER_SUCCESS, { w with logger := some ⟨FILE.stdout, true, level⟩ })
      | some name =>
        match fopen fopenOk w name with
        | (none, w1) => (.SP_LOGGER_CANNOT_OPEN_FILE, { w1 with logger := none })
        | (some ch, w1) => (.SP_LOGGER_SUCCESS, { w1 with logger := some ⟨ch, false, level⟩ })

/-- Lines 63-72. -/
def spLoggerDestroy (w : World) : World :=
  match w.logger with
  | none => w
  | some lg =>
    let w1 := if !lg.isStdOut then fclose w lg.outputChannel else w
    { w1 with logger := none }

/-- Lines 74-99; `none` is the `NULL` of the default case. -/
def getMsgTitleByType : SP_LOGGER_MSG_TYPE → Option String
  | .SP_LOGGER_ERROR_MSG => some SP_LOGGER_ERROR_MSG_TITLE
  | .SP_LOGGER_WARNING_MSG => some SP_LOGGER_WARNING_MSG_TITLE
  | .SP_LOGGER_INFO_MSG => some SP_LOGGER_INFO_MSG_TITLE
  | .SP_LOGGER_DEBUG_MSG => some SP_LOGGER_DEBUG_MSG_TITLE
  | .SP_LOGGER_NO_TITLE_MSG => none

/-- Lines 155-162 of `spLoggerPrintGenericMsg`: the message line and the final return. -/
def genericMsgSection (wr : List WriteOutcome) (w : World) (lg : sp_logger_t) (msg : Option String) :
    SP_LOGGER_MSG × World :=
  let r := fprintf wr w lg.outputChannel
    (SP_LOGGER_MSG_MSG_SECTION ++ " " ++ fmtS msg ++ "\n")
  if r.1 == EOF then (.SP_LOGGER_WRITE_FAIL, r.2.2)
  else (.SP_LOGGER_SUCCESS, r.2.2)

/-- Lines 130-162 of `spLoggerPrintGenericMsg`: the three lines of call-site data when
`include_func_data` is set, then the message line. -/
def genericFuncData (wr : List WriteOutcome) (w : World) (lg : sp_logger_t) (msg : Option String)
    (include_func_data : Int) (file function : Option String) (line : Int) :
    SP_LOGGER_MSG × World :=
  if include_func_data != 0 then
    let r1 := fprintf wr w lg.outputChannel
      (SP_LOGGER_MSG_FILE_SECTION ++ " " ++ fmtS file ++ "\n")
    if r1.1 == EOF then (.SP_LOGGER_WRITE_FAIL, r1.2.2)
    else
      let r2 := fprintf r1.2.1 r1.2.2 lg.outputChannel
        (SP_LOGGER_MSG_FUNC_SECTION ++ " " ++ fmtS function ++ "\n")
      if r2.1 == EOF then (.SP_LOGGER_WRITE_FAIL, r2.2.2)
      else
        let r3 := fprintf r2.2.1 r2.2.2 lg.outputChannel
          (SP_LOGGER_MSG_LINE_SECTION ++ " " ++ fmtD line ++ "\n")
        if r3.1 == EOF then (.SP_LOGGER_WRITE_FAIL, r3.2.2)
        else genericMsgSection r3.2.1 r3.2.2 lg msg
  else genericMsgSection wr w lg msg

/-- Lines 101-163. -/
def spLoggerPrintGenericMsg (wr : List WriteOutcome) (w : World) (msg_type : SP_LOGGER_MSG_TYPE)
    (msg : Option String) (include_func_data : Int) (file function : Option String)
    (line : Int) : SP_LOGGER_MSG × World :=
  match w.logger with
  | none => (.SP_LOGGER_UNDIFINED, w)
  | some lg =>
    if msg.isNone || ((file.isNone || function.isNone || decide (line < 0))
        && (include_func_data != 0)) then
      (.SP_LOGGER_INVAlID_ARGUMENT, w)
    else
      match getMsgTitleByType msg_type with
      | some msg_title =>
        let r := fprintf wr w lg.outputChannel (msg_title ++ "\n")
        if r.1 == EOF then (.SP_LOGGER_WRITE_FAIL, r.2.2)
        else genericFuncData r.2.1 r.2.2 lg msg include_func_data file function line
      | none => genericFuncData wr w lg msg include_func_data file function line

/-- Lines 200-215. -/
def spLoggerPrintError (wr : List WriteOutcome) (w : World) (msg file function : Option String)
    (line : Int) : SP_LOGGER_MSG × World :=
  match w.logger with
  | none => (.SP_LOGGER_UNDIFINED, w)
  | some _ =>
    if msg.isNone || file.isNone || function.isNone || decide (line < 0) then
      (.SP_LOGGER_INVAlID_ARGUMENT, w)
    else
      spLoggerPrintGenericMsg wr w .SP_LOGGER_ERROR_MSG msg 1 file function line

/-- Lines 251-272. -/
def spLoggerPrintWarning (wr : List WriteOutcome) (w : World) (msg file function : Option String)
    (line : Int) : SP_LOGGER_MSG × World :=
  match w.logger with
  | none => (.SP_LOGGER_UNDIFINED, w)
  | some lg =>
    if msg.isNone || file.isNone || function.isNone || decide (line < 0) then
      (.SP_LOGGER_INVAlID_ARGUMENT, w)
    else if lg.level.toInt ≥ SP_LOGGER_LEVEL.SP_LOGGER_WARNING_ERROR_LEVEL.toInt then
      spLoggerPrintGenericMsg wr w .SP_LOGGER_WARNING_MSG msg 1 file function line
    else (.SP_LOGGER_SUCCESS, w)

/-- Lines 295-315. -/
def spLoggerPrintInfo (wr : List WriteOutcome) (w : World) (msg : Option String) :
    SP_LOGGER_MSG × World :=
  match w.logger with
  | none => (.SP_LOGGER_UNDIFINED, w)
  | some lg =>
    if msg.isNone then (.SP_LOGGER_INVAlID_ARGUMENT, w)
    else if lg.level.toInt ≥ SP_LOGGER_LEVEL.SP_LOGGER_INFO_WARNING_ERROR_LEVEL.toInt then
      spLoggerPrintGenericMsg wr w .SP_LOGGER_INFO_MSG msg 0 none none 0
    else (.SP_LOGGER_SUCCESS, w)

/-- Lines 349-370. -/
def spLoggerPrintDebug (wr : List WriteOutcome) (w : World) (msg file function : Option String)
    (line : Int) : SP_LOGGER_MSG × World :=
  match w.logger with
  | none => (.SP_LOGGER_UNDIFINED, w)
  | some lg =>
    if msg.isNone || file.isNone || function.isNone || decide (line < 0) then
      (.SP_LOGGER_INVAlID_ARGUMENT, w)
    else if lg.level = SP_LOGGER_LEVEL.SP_LOGGER_DEBUG_INFO_WARNING_ERROR_LEVEL then
      spLoggerPrintGenericMsg wr w .SP_LOGGER_DEBUG_MSG msg 1 file function line
    else (.SP_LOGGER_SUCCESS, w)

/-- Lines 383-397. -/
def spLoggerPrintMsg (wr : List WriteOutcome) (w : World) (msg : Option String) :
    SP_LOGGER_MSG × World :=
  match w.logger with
  | none => (.SP_LOGGER_UNDIFINED, w)
  | some _ =>
    if msg.isNone then (.SP_LOGGER_INVAlID_ARGUMENT, w)
    else spLoggerPrintGenericMsg wr w .SP_LOGGER_NO_TITLE_MSG msg 0 none none 0

/-- The code and the text that leave a run of `fprintf` calls, one per element of the list,
which stops at the first call that returns `EOF` (an auxiliary of the proofs). -/
def emit : List WriteOutcome → List String → SP_LOGGER_MSG × String
  | _, [] => (.SP_LOGGER_SUCCESS, "")
  | .failed sent :: _, t :: _ => (.SP_LOGGER_WRITE_FAIL, sentPart t sent)
  | .ok :: rest, t :: ts => ((emit rest ts).1, t ++ (emit rest ts).2)
  | [], t :: ts => ((emit [] ts).1, t ++ (emit [] ts).2)

/-- The texts `spLoggerPrintGenericMsg` passes to `fprintf`, in order, once its arguments
have been accepted, `title` being what `getMsgTitleByType` returned (an auxiliary of the
proofs). -/
def genericLines (title : Option String) (msg : Option String)
    (include_func_data : Int) (file function : Option String) (line : Int) : List String :=
  (match title with
    | some msg_title => [msg_title ++ "\n"]
    | none => []) ++
  ((if include_func_data != 0 then
      [SP_LOGGER_MSG_FILE_SECTION ++ " " ++ fmtS file ++ "\n",
       SP_LOGGER_MSG_FUNC_SECTION ++ " " ++ fmtS function ++ "\n",
       SP_LOGGER_MSG_LINE_SECTION ++ " " ++ fmtD line ++ "\n"]
    else []) ++
  [SP_LOGGER_MSG_MSG_SECTION ++ " " ++ fmtS msg ++ "\n"])

/-- A call of one of the five message operations, with its arguments. -/
inductive Call
  | printError (msg file function : Option String) (line : Int)
  | printWarning (msg file function : Option String) (line : Int)
  | printInfo (msg : Option String)
  | printDebug (msg file function : Option String) (line : Int)
  | printMsg (msg : Option String)

/-- Running a call: the source function the call names, applied to its arguments. -/
def Call.run (wr : List WriteOutcome) (w : World) : Call → SP_LOGGER_MSG × World
  | .printError msg file function line => spLoggerPrintError wr w msg file function line
  | .printWarning msg file function line => spLoggerPrintWarning wr w msg file function line
  | .printInfo msg => spLoggerPrintInfo wr w msg
  | .printDebug msg file function line => spLoggerPrintDebug wr w msg file function line
  | .printMsg msg => spLoggerPrintMsg wr w msg

/-- Section 4.2 of the specification, validity of the arguments of a call: the message is
present and, for the operations that take call-site data, the file name and the function name
are present and the line number is not negative. -/
def Call.valid : Call → Bool
  | .printError msg file function line =>
    msg.isSome && file.isSome && function.isSome && decide (0 ≤ line)
  | .printWarning msg file function line =>
    msg.isSome && file.isSome && function.isSome && decide (0 ≤ line)
  | .printInfo msg => msg.isSome
  | .printDebug msg file function line =>
    msg.isSome && file.isSome && function.isSome && decide (0 ≤ line)
  | .printMsg msg => msg.isSome

/-- Section 4.2 of the specification, the four nested visibility tiers: the lowest level at
which a call is visible. -/
def Call.minLevel : Call → SP_LOGGER_LEVEL
  | .printError _ _ _ _ => SP_LOGGER_LEVEL.SP_LOGGER_ERROR_LEVEL
  | .printWarning _ _ _ _ => SP_LOGGER_LEVEL.SP_LOGGER_WARNING_ERROR_LEVEL
  | .printInfo _ => SP_LOGGER_LEVEL.SP_LOGGER_INFO_WARNING_ERROR_LEVEL
  | .printDebug _ _ _ _ => SP_LOGGER_LEVEL.SP_LOGGER_DEBUG_INFO_WARNING_ERROR_LEVEL
  | .printMsg _ => SP_LOGGER_LEVEL.SP_LOGGER_ERROR_LEVEL

/-- The texts the operation of a call hands to the generic printer for writing, in order
(an auxiliary of the proofs). -/
def Call.lines : Call → List String
  | .printError msg file function line =>
    genericLines (getMsgTitleByType .SP_LOGGER_ERROR_MSG) msg 1 file function line
  | .printWarning msg file function line =>
    genericLines (getMsgTitleByType .SP_LOGGER_WARNING_MSG) msg 1 file function line
  | .printInfo msg => genericLines (getMsgTitleByType .SP_LOGGER_INFO_MSG) msg 0 none none 0
  | .printDebug msg file function line =>
    genericLines (getMsgTitleByType .SP_LOGGER_DEBUG_MSG) msg 1 file function line
  | .printMsg msg =>
    genericLines (getMsgTitleByType .SP_LOGGER_NO_TITLE_MSG) msg 0 none none 0

/-- A sequence of message operations run one after the other, each with the outcomes of its
own writes; the return codes are dropped, the state is threaded through. -/
def runCalls : List (List WriteOutcome × Call) → World → World
  | [], w => w
  | (wr, c) :: rest, w => runCalls rest (c.run wr w).2

/-- A file-backed logger at the most permissive level over an empty file `log.txt`. -/
def demoWorld : World :=
  (spLoggerCreate true true World.start (some "log.txt")
    SP_LOGGER_LEVEL.SP_LOGGER_DEBUG_INFO_WARNING_ERROR_LEVEL).2

/-- A logger over the standard output created at the strictest level from the start state. -/
def strictWorld : World :=
  (spLoggerCreate true true World.start none SP_LOGGER_LEVEL.SP_LOGGER_ERROR_LEVEL).2

end SPLogger

/-!
# SPPoint

The points of `SPPoint.c` live on a heap: a point is the address of a `sp_point_t` block whose
`coords` field is the address of a block of doubles.  A run that does not return a value ends
in a `Fault`.  Values of type `double` are only stored and read back by the functions
embedded here; they are Lean `Float`s.
-/

namespace SPPoint

/-- How a run ends when it does not return: a failed `assert` aborts the program; an access
to storage that is not live, or outside a live block, is undefined behaviour. -/
inductive Fault
  | assertion
  | undefined
  deriving DecidableEq

/-- The struct `sp_point_t` (lines 12-17); `coords` is the address of a block of doubles
(`none` is `NULL`). -/
structure sp_point_t where
  coords : Option Nat
  dim : Int
  index : Int
  deriving DecidableEq

/-- The heap: the live `sp_point_t` blocks and the live blocks of doubles, by address, and
the first address `malloc` has not handed out yet. -/
structure Heap where
  points : Nat → Option sp_point_t
  arrays : Nat → Option (List Float)
  next : Nat

/-- The library call `malloc(sizeof(*point))`: when the environment lets it succeed (`ok`) a
new block is live at an address no block has had; its fields are not initialised (they read
as zero here). -/
def mallocPoint (ok : Bool) (h : Heap) : Option Nat × Heap :=
  if ok then
    (some h.next,
      { h with points := Function.update h.points h.next (some ⟨none, 0, 0⟩),
               next := h.next + 1 })
  else (none, h)

/-- The library call `malloc(dim * sizeof(double))` for `dim > 0`: a new block of `dim`
doubles, not initialised (they read as zero here). -/
def mallocCoords (ok : Bool) (h : Heap) (dim : Int) : Option Nat × Heap :=
  if ok then
    (some h.next,
      { h with arrays := Function.update h.arrays h.next (some (List.replicate dim.toNat 0)),
               next := h.next + 1 })
  else (none, h)

/-- The library call `free` on the address of a `sp_point_t` block. -/
def freePoint (h : Heap) (p : Nat) : Except Fault Heap :=
  match h.points p with
  | none => .error .undefined
  | some _ => .ok { h with points := Function.update h.points p none }

/-- The library call `free` on the address of a block of doubles. -/
def freeCoords (h : Heap) (a : Nat) : Except Fault Heap :=
  match h.arrays a with
  | none => .error .undefined
  | some _ => .ok { h with arrays := Function.update h.arrays a none }

/-- The read `a[i]` of a double; `none` when the block is not live or `i` is outside it. -/
def readDouble (h : Heap) (a : Nat) (i : Int) : Option Float :=
  match h.arrays a with
  | none => none
  | some block => if i < 0 then none else block.get? i.toNat

/-- The write `a[i] = x` of a double; `none` when the block is not live or `i` is outside
it. -/
def writeDouble (h : Heap) (a : Nat) (i : Int) (x : Float) : Option Heap :=
  match h.arrays a with
  | none => none
  | some block =>
    if i < 0 ∨ block.length ≤ i.toNat then none
    else some { h with arrays := Function.update h.arrays a (some (block.set i.toNat x)) }

/-- Lines 47-50, the loop `for (i = 0; i < dim; i++) point->coords[i] = data[i]`, from the
counter `i` with `n = dim - i` iterations left. -/
def copyLoop (h : Heap) (data coords : Nat) (i : Nat) : Nat → Except Fault Heap
  | 0 => .ok h
  | n + 1 =>
    match readDouble h data (i : Int) with
    | none => .error .undefined
    | some x =>
      match writeDouble h coords (i : Int) x with
      | none => .error .undefined
      | some h1 => copyLoop h1 data coords (i + 1) n

/-- Lines 20-53.  `mallocOk1` and `mallocOk2` are the outcomes the environment gives to the
two calls of `malloc`; the result is the pointer returned (`none` is `NULL`) and the heap. -/
def spPointCreate (mallocOk1 mallocOk2 : Bool) (h : Heap) (data : Option Nat)
    (dim index : Int) : Except Fault (Option Nat × Heap) :=
  match data with
  | none => .ok (none, h)
  | some buffer =>
    if decide (dim ≤ 0) || decide (index < 0) then .ok (none, h)
    else
      match mallocPoint mallocOk1 h with
      | (none, h1) => .ok (none, h1)
      | (some point, h1) =>
        let h2 : Heap :=
          { h1 with points := Function.update h1.points point (some ⟨none, dim, index⟩) }
        match mallocCoords mallocOk2 h2 dim with
        | (none, h3) =>
          match freePoint h3 point with
          | .error e => .error e
          | .ok h4 => .ok (none, h4)
        | (some coords, h3) =>
          let h4 : Heap :=
            { h3 with
              points := Function.update h3.points point (some ⟨some coords, dim, index⟩) }
          match copyLoop h4 buffer coords 0 dim.toNat with
          | .error e => .error e
          | .ok h5 => .ok (some point, h5)

/-- Lines 70-80. -/
def spPointCopy (mallocOk1 mallocOk2 : Bool) (h : Heap) (source : Option Nat) :
    Except Fault (Option Nat × Heap) :=
  match source with
  | none => .error .assertion
  | some s =>
    match h.points s with
    | none => .error .undefined
    | some st => spPointCreate mallocOk1 mallocOk2 h st.coords st.dim st.index

/-- Lines 82-94. -/
def spPointDestroy (h : Heap) (point : Option Nat) : Except Fault Heap :=
  match point with
  | none => .ok h
  | some p =>
    match h.points p with
    | none => .error .undefined
    | some st =>
      match st.coords with
      | none => freePoint h p
      | some a =>
        match freeCoords h a with
        | .error e => .error e
        | .ok h1 => freePoint h1 p

/-- Lines 97-102. -/
def spPointGetDimension (h : Heap) (point : Option Nat) : Except Fault Int :=
  match point with
  | none => .error .assertion
  | some p =>
    match h.points p with
    | none => .error .undefined
    | some st => .ok st.dim

/-- Lines 105-110. -/
def spPointGetIndex (h : Heap) (point : Option Nat) : Except Fault Int :=
  match point with
  | none => .error .assertion
  | some p =>
    match h.points p with
    | none => .error .undefined
    | some st => .ok st.index

/-- Lines 112-117: the assertion `point != NULL && axis < point->dim`, then the read
`point->coords[axis]`. -/
def spPointGetAxisCoor (h : Heap) (point : Option Nat) (axis : Int) : Except Fault Float :=
  match point with
  | none => .error .assertion
  | some p =>
    match h.points p with
    | none => .error .undefined
    | some st =>
      if axis < st.dim then
        match st.coords with
        | none => .error .undefined
        | some a =>
          match readDouble h a axis with
          | none => .error .undefined
          | some x => .ok x
      else .error .assertion

/-- The address `p` holds a point as `spPointCreate` builds it: a live `sp_point_t` block with
a positive dimension and an index that is not negative, whose `coords` is a live block of
`dim` doubles, both blocks at addresses `malloc` has handed out. -/
def isPoint (h : Heap) (p : Nat) : Bool :=
  match h.points p with
  | none => false
  | some st =>
    match st.coords with
    | none => false
    | some a =>
      match h.arrays a with
      | none => false
      | some block =>
        decide (0 < st.dim) && decide (0 ≤ st.index) && decide (block.length = st.dim.toNat)
          && decide (p < h.next) && decide (a < h.next)

/-- The heap `spPointCreate` leaves when both allocations succeed and the buffer holds `block`:
the point at the first fresh address, its coordinates, the first `dim` doubles of the
buffer, at the next one (an auxiliary of the proofs). -/
def createdHeap (h : Heap) (block : List Float) (dim index : Int) : Heap :=
  { points := Function.update h.points h.next (some ⟨some (h.next + 1), dim, index⟩),
    arrays := Function.update h.arrays (h.next + 1) (some (block.take dim.toNat)),
    next := h.next + 2 }

/-- What the read of lines 114-116 returns on a block of doubles: the assertion on `axis`,
then the access (an auxiliary of the proofs). -/
def axisRead (block : List Float) (dim axis : Int) : Except Fault Float :=
  if axis < dim then
    if axis < 0 then .error .undefined
    else
      match block.get? axis.toNat with
      | none => .error .undefined
      | some x => .ok x
  else .error .assertion

/-- A heap whose only live block is a buffer of two doubles at address 0. -/
def bufferHeap : Heap :=
  ⟨fun _ => none, fun a => if a = 0 then some [1.5, 2.5] else none, 1⟩

/-- The heap after a point of dimension 2 and index 7 has been created from the buffer of
`bufferHeap`; the point is at address 1 and its coordinates at address 2. -/
def pointHeap : Heap :=
  match spPointCreate true true bufferHeap (some 0) 2 7 with
  | .ok (_, h) => h
  | .error _ => bufferHeap

/-- The heap after the point of `pointHeap` has been copied; the copy is at address 3 and its
coordinates at address 4. -/
def copyHeap : Heap :=
  match spPointCopy true true pointHeap (some 1) with
  | .ok (_, h) => h
  | .error _ => pointHeap

end SPPoint

namespace SPLogger

/-! ## Auxiliary lemmas -/

theorem World.append_empty (w : World) (ch : FILE) : w.append ch "" = w := by
  cases w
  simp [World.append]

theorem World.append_append (w : World) (ch : FILE) (a b : String) :
    (w.append ch a).append ch b = w.append ch (a ++ b) := by
  cases w
  simp [World.append, String.append_assoc]

theorem World.append_logger (w : World) (ch : FILE) (a : String) :
    (w.append ch a).logger = w.logger := rfl

theorem size_ne_EOF (t : String) : ((t.utf8ByteSize : Int) == EOF) = false := by
  simp only [beq_eq_false_iff_ne, EOF]
  omega

/-- A run of checked `fprintf` calls, as the source writes it, has the outcome `emit`. -/
theorem fprintf_step (wr : List WriteOutcome) (w : World) (ch : FILE) (t : String) (ts : List String)
    (k : List WriteOutcome → World → SP_LOGGER_MSG × World)
    (hk : ∀ wr1 w1, k wr1 w1 = ((emit wr1 ts).1, w1.append ch (emit wr1 ts).2)) :
    (if (fprintf wr w ch t).1 == EOF then (SP_LOGGER_MSG.SP_LOGGER_WRITE_FAIL, (fprintf wr w ch t).2.2)
      else k (fprintf wr w ch t).2.1 (fprintf wr w ch t).2.2) =
    ((emit wr (t :: ts)).1, w.append ch (emit wr (t :: ts)).2) := by
  match wr with
  | .failed sent :: rest => simp [fprintf, emit, EOF]
  | .ok :: rest => simp [fprintf, emit, size_ne_EOF, hk, World.append_append]
  | [] => simp [fprintf, emit, size_ne_EOF, hk, World.append_append]

theorem genericMsgSection_eq (wr : List WriteOutcome) (w : World) (lg : sp_logger_t)
    (msg : Option String) :
    genericMsgSection wr w lg msg =
      ((emit wr [SP_LOGGER_MSG_MSG_SECTION ++ " " ++ fmtS msg ++ "\n"]).1,
        w.append lg.outputChannel
          (emit wr [SP_LOGGER_MSG_MSG_SECTION ++ " " ++ fmtS msg ++ "\n"]).2) := by
  unfold genericMsgSection
  exact fprintf_step wr w lg.outputChannel _ []
    (fun _ w1 => (SP_LOGGER_MSG.SP_LOGGER_SUCCESS, w1))
    (fun wr1 w1 => by simp [emit, World.append_empty])

theorem genericFuncData_eq (wr : List WriteOutcome) (w : World) (lg : sp_logger_t)
    (msg : Option String) (include_func_data : Int) (file function : Option String)
    (line : Int) :
    genericFuncData wr w lg msg include_func_data file function line =
      ((emit wr (genericLines none msg include_func_data file function line)).1,
        w.append lg.outputChannel
          (emit wr (genericLines none msg include_func_data file function line)).2) := by
  unfold genericFuncData
  by_cases hinc : (include_func_data != 0) = true
  · simp only [hinc, if_true, genericLines, List.nil_append, List.cons_append]
    have h3 := fun wr3 w3 => genericMsgSection_eq wr3 w3 lg msg
    have h2 := fun wr2 w2 => fprintf_step wr2 w2 lg.outputChannel
      (SP_LOGGER_MSG_LINE_SECTION ++ " " ++ fmtD line ++ "\n") _ _ h3
    have h1 := fun wr1 w1 => fprintf_step wr1 w1 lg.outputChannel
      (SP_LOGGER_MSG_FUNC_SECTION ++ " " ++ fmtS function ++ "\n") _ _ h2
    exact fprintf_step wr w lg.outputChannel
      (SP_LOGGER_MSG_FILE_SECTION ++ " " ++ fmtS file ++ "\n") _ _ h1
  · simp only [hinc, genericLines, List.nil_append]
    exact genericMsgSection_eq wr w lg msg

/-- On a live logger and accepted arguments, the generic printer is a run of checked writes
of `genericLines`. -/
theorem spLoggerPrintGenericMsg_eq (wr : List WriteOutcome) (w : World) (lg : sp_logger_t)
    (msg_type : SP_LOGGER_MSG_TYPE) (msg : Option String) (include_func_data : Int)
    (file function : Option String) (line : Int) (hlive : w.logger = some lg)
    (hargs : (msg.isNone || ((file.isNone || function.isNone || decide (line < 0))
        && (include_func_data != 0))) = false) :
    spLoggerPrintGenericMsg wr w msg_type msg include_func_data file function line =
      ((emit wr (genericLines (getMsgTitleByType msg_type) msg include_func_data file
          function line)).1,
        w.append lg.outputChannel
          (emit wr (genericLines (getMsgTitleByType msg_type) msg include_func_data file
            function line)).2) := by
  unfold spLoggerPrintGenericMsg
  simp only [hlive, hargs]
  cases getMsgTitleByType msg_type with
  | none =>
    exact genericFuncData_eq wr w lg msg include_func_data file function line
  | some msg_title =>
    simp only [Bool.false_eq_true, if_false]
    exact fprintf_step wr w lg.outputChannel (msg_title ++ "\n")
      (genericLines none msg include_func_data file function line) _
      (fun wr1 w1 => genericFuncData_eq wr1 w1 lg msg include_func_data file function line)

theorem sentPart_zero (t : String) : sentPart t 0 = "" := rfl

/-- The concatenation of a list of texts. -/
theorem emit_all_ok (wr : List WriteOutcome) (hwr : ∀ o ∈ wr, o = WriteOutcome.ok)
    (ls : List String) :
    emit wr ls = (SP_LOGGER_MSG.SP_LOGGER_SUCCESS, ls.foldr (fun a b => a ++ b) "") := by
  induction ls generalizing wr with
  | nil => cases wr <;> simp [emit]
  | cons t ts ih =>
    match wr with
    | [] => simp [emit, ih [] (by simp)]
    | .ok :: rest =>
      have hrest : ∀ o ∈ rest, o = WriteOutcome.ok :=
        fun o ho => hwr o (List.mem_cons_of_mem _ ho)
      simp [emit, ih rest hrest]
    | .failed sent :: rest =>
      exact absurd (hwr (.failed sent) (List.mem_cons_self _ _)) (by simp)

theorem emit_code (wr : List WriteOutcome) (ls : List String) :
    (emit wr ls).1 = SP_LOGGER_MSG.SP_LOGGER_SUCCESS ∨
      (emit wr ls).1 = SP_LOGGER_MSG.SP_LOGGER_WRITE_FAIL := by
  induction ls generalizing wr with
  | nil => cases wr <;> simp [emit]
  | cons t ts ih =>
    match wr with
    | [] => simpa [emit] using ih []
    | .ok :: rest => simpa [emit] using ih rest
    | .failed sent :: rest => simp [emit]

theorem fmtD_nonneg (line : Int) (h : 0 ≤ line) : fmtD line = Nat.repr line.toNat := by
  simp [fmtD, not_lt.mpr h]

/-- The texts written for a titled record with call-site data, label and value joined. -/
theorem genericLines_full (title msg file function : String) (line : Int) (h : 0 ≤ line) :
    genericLines (some title) (some msg) 1 (some file) (some function) line =
      [title ++ "\n", "- file: " ++ file ++ "\n", "- function: " ++ function ++ "\n",
        "- line: " ++ Nat.repr line.toNat ++ "\n", "- message: " ++ msg ++ "\n"] := by
  have e1 : SP_LOGGER_MSG_FILE_SECTION ++ " " = "- file: " := by decide
  have e2 : SP_LOGGER_MSG_FUNC_SECTION ++ " " = "- function: " := by decide
  have e3 : SP_LOGGER_MSG_LINE_SECTION ++ " " = "- line: " := by decide
  have e4 : SP_LOGGER_MSG_MSG_SECTION ++ " " = "- message: " := by decide
  simp [genericLines, fmtS, fmtD_nonneg line h, e1, e2, e3, e4]

theorem genericLines_short (title : Option String) (msg : String) :
    genericLines title (some msg) 0 none none 0 =
      (match title with
        | some t => [t ++ "\n"]
        | none => []) ++ ["- message: " ++ msg ++ "\n"] := by
  have e4 : SP_LOGGER_MSG_MSG_SECTION ++ " " = "- message: " := by decide
  simp [genericLines, fmtS, e4]

/-- The five lines of a titled record with call-site data, joined into one text. -/
theorem record_text (title file function lineTxt msg : String) :
    List.foldr (fun a b => a ++ b) ""
      [title ++ "\n", "- file: " ++ file ++ "\n", "- function: " ++ function ++ "\n",
        "- line: " ++ lineTxt ++ "\n", "- message: " ++ msg ++ "\n"] =
    title ++ "\n- file: " ++ file ++ "\n- function: " ++ function ++ "\n- line: " ++ lineTxt
      ++ "\n- message: " ++ msg ++ "\n" := by
  have e1 : "\n- file: " = "\n" ++ "- file: " := by decide
  have e2 : "\n- function: " = "\n" ++ "- function: " := by decide
  have e3 : "\n- line: " = "\n" ++ "- line: " := by decide
  have e4 : "\n- message: " = "\n" ++ "- message: " := by decide
  simp only [List.foldr, e1, e2, e3, e4, String.append_assoc, String.append_empty]

/-- A titled record with call-site data on a live logger, every write succeeding. -/
theorem generic_full_ok (wr : List WriteOutcome) (w : World) (lg : sp_logger_t)
    (msg_type : SP_LOGGER_MSG_TYPE) (title msg file function : String) (line : Int)
    (hlive : w.logger = some lg) (htitle : getMsgTitleByType msg_type = some title)
    (hline : 0 ≤ line) (hwr : ∀ o ∈ wr, o = WriteOutcome.ok) :
    spLoggerPrintGenericMsg wr w msg_type (some msg) 1 (some file) (some function) line =
      (SP_LOGGER_MSG.SP_LOGGER_SUCCESS, w.append lg.outputChannel
        (title ++ "\n- file: " ++ file ++ "\n- function: " ++ function ++ "\n- line: "
          ++ Nat.repr line.toNat ++ "\n- message: " ++ msg ++ "\n")) := by
  have hargs : ((some msg).isNone || (((some file).isNone || (some function).isNone
      || decide (line < 0)) && ((1 : Int) != 0))) = false := by
    simp [not_lt.mpr hline]
  rw [spLoggerPrintGenericMsg_eq wr w lg msg_type (some msg) 1 (some file) (some function)
    line hlive hargs, htitle, genericLines_full title msg file function line hline,
    emit_all_ok wr hwr, record_text]

/-- A record without call-site data on a live logger, every write succeeding. -/
theorem generic_short_ok (wr : List WriteOutcome) (w : World) (lg : sp_logger_t)
    (msg_type : SP_LOGGER_MSG_TYPE) (msg : String)
    (hlive : w.logger = some lg) (hwr : ∀ o ∈ wr, o = WriteOutcome.ok) :
    spLoggerPrintGenericMsg wr w msg_type (some msg) 0 none none 0 =
      (SP_LOGGER_MSG.SP_LOGGER_SUCCESS, w.append lg.outputChannel
        ((match getMsgTitleByType msg_type with
          | some t => t ++ "\n"
          | none => "") ++ "- message: " ++ msg ++ "\n")) := by
  have hargs : ((some msg).isNone || (((none : Option String).isNone
      || (none : Option String).isNone || decide ((0 : Int) < 0)) && ((0 : Int) != 0)))
      = false := by
    simp
  rw [spLoggerPrintGenericMsg_eq wr w lg msg_type (some msg) 0 none none 0 hlive hargs,
    genericLines_short, emit_all_ok wr hwr]
  cases getMsgTitleByType msg_type <;>
    simp only [List.foldr, List.cons_append, List.nil_append, List.singleton_append,
      String.append_assoc, String.append_empty, String.empty_append]

theorem printError_ok (wr : List WriteOutcome) (w : World) (lg : sp_logger_t)
    (msg file function : String) (line : Int) (hlive : w.logger = some lg)
    (hline : 0 ≤ line) (hwr : ∀ o ∈ wr, o = WriteOutcome.ok) :
    spLoggerPrintError wr w (some msg) (some file) (some function) line =
      (SP_LOGGER_MSG.SP_LOGGER_SUCCESS, w.append lg.outputChannel
        ("---ERROR---\n- file: " ++ file ++ "\n- function: " ++ function ++ "\n- line: "
          ++ Nat.repr line.toNat ++ "\n- message: " ++ msg ++ "\n")) := by
  have e : "---ERROR---\n- file: " = "---ERROR---" ++ "\n- file: " := by decide
  have h := generic_full_ok wr w lg .SP_LOGGER_ERROR_MSG "---ERROR---" msg file function line
    hlive rfl hline hwr
  simp only [spLoggerPrintError, hlive]
  rw [e, ← h]
  simp [not_lt.mpr hline]

theorem printMsg_ok (wr : List WriteOutcome) (w : World) (lg : sp_logger_t) (msg : String)
    (hlive : w.logger = some lg) (hwr : ∀ o ∈ wr, o = WriteOutcome.ok) :
    spLoggerPrintMsg wr w (some msg) =
      (SP_LOGGER_MSG.SP_LOGGER_SUCCESS,
        w.append lg.outputChannel ("- message: " ++ msg ++ "\n")) := by
  have h := generic_short_ok wr w lg .SP_LOGGER_NO_TITLE_MSG msg hlive hwr
  simp only [getMsgTitleByType, String.empty_append] at h
  simp only [spLoggerPrintMsg, hlive]
  rw [← h]
  simp

theorem append_newline_ne_empty (a : String) : a ++ "\n" ≠ "" := by
  intro h
  have hl := congrArg String.length h
  rw [String.length_append] at hl
  have h1 : "\n".length = 1 := rfl
  have h0 : "".length = 0 := rfl
  omega

theorem spLoggerDestroy_logger (w : World) : (spLoggerDestroy w).logger = none := by
  unfold spLoggerDestroy
  cases h : w.logger <;> simp [h]

/-- The check of lines 208, 259 and 357 rejects a call with a missing string or a negative
line, on every live logger, before the level is looked at. -/
theorem metadata_rejected (w : World) (lg : sp_logger_t) (msg file function : Option String)
    (line : Int) (hlive : w.logger = some lg)
    (hbad : msg = none ∨ file = none ∨ function = none ∨ line < 0) :
    (∀ wr, spLoggerPrintError wr w msg file function line
        = (SP_LOGGER_MSG.SP_LOGGER_INVAlID_ARGUMENT, w))
      ∧ (∀ wr, spLoggerPrintWarning wr w msg file function line
        = (SP_LOGGER_MSG.SP_LOGGER_INVAlID_ARGUMENT, w))
      ∧ (∀ wr, spLoggerPrintDebug wr w msg file function line
        = (SP_LOGGER_MSG.SP_LOGGER_INVAlID_ARGUMENT, w)) := by
  have hcond : (msg.isNone || file.isNone || function.isNone || decide (line < 0)) = true := by
    rcases hbad with h | h | h | h <;> simp [h]
  refine ⟨fun wr => ?_, fun wr => ?_, fun wr => ?_⟩
  · simp only [spLoggerPrintError, hlive, hcond, if_true]
  · simp only [spLoggerPrintWarning, hlive, hcond, if_true]
  · simp only [spLoggerPrintDebug, hlive, hcond, if_true]

/-- With the three strings present and a line that is not negative, both checks of the
arguments (the one of the entry point and the one of the generic printer) pass. -/
theorem metadata_accepted (msg file function : Option String) (line : Int)
    (hm : msg ≠ none) (hf : file ≠ none) (hg : function ≠ none) (hline : 0 ≤ line) :
    (msg.isNone || file.isNone || function.isNone || decide (line < 0)) = false
      ∧ (msg.isNone || ((file.isNone || function.isNone || decide (line < 0))
          && ((1 : Int) != 0))) = false := by
  cases msg <;> cases file <;> cases function <;> simp_all [not_lt.mpr hline]

theorem valid_metadata (msg file function : Option String) (line : Int)
    (h : (msg.isSome && file.isSome && function.isSome && decide (0 ≤ line)) = true) :
    msg ≠ none ∧ file ≠ none ∧ function ≠ none ∧ 0 ≤ line := by
  cases msg <;> cases file <;> cases function <;> simp_all

/-- On a live logger the code the generic printer returns and the text it appends depend on
the instance, the arguments and the outcomes of the writes only. -/
theorem generic_live (wr : List WriteOutcome) (lg : sp_logger_t) (msg_type : SP_LOGGER_MSG_TYPE)
    (msg : Option String) (include_func_data : Int) (file function : Option String)
    (line : Int) :
    ∃ code text, ∀ w : World, w.logger = some lg →
      spLoggerPrintGenericMsg wr w msg_type msg include_func_data file function line
        = (code, w.append lg.outputChannel text) := by
  by_cases hargs : (msg.isNone || ((file.isNone || function.isNone || decide (line < 0))
      && (include_func_data != 0))) = true
  · refine ⟨SP_LOGGER_MSG.SP_LOGGER_INVAlID_ARGUMENT, "", fun w hl => ?_⟩
    simp only [spLoggerPrintGenericMsg, hl, hargs, if_true, World.append_empty]
  · exact ⟨_, _, fun w hl => spLoggerPrintGenericMsg_eq wr w lg msg_type msg
      include_func_data file function line hl (Bool.eq_false_iff.mpr hargs)⟩

/-- On a live logger the code a message operation returns and the text it appends depend on
the instance, the call and the outcomes of the writes only. -/
theorem run_live (wr : List WriteOutcome) (lg : sp_logger_t) (c : Call) :
    ∃ code text, ∀ w : World, w.logger = some lg →
      c.run wr w = (code, w.append lg.outputChannel text) := by
  have hsame : ∀ code, ∃ (code1 : SP_LOGGER_MSG) (text : String), ∀ w : World,
      w.logger = some lg → (code, w) = (code1, w.append lg.outputChannel text) :=
    fun code => ⟨code, "", fun w _ => by rw [World.append_empty]⟩
  cases c with
  | printError msg file function line =>
    by_cases hv : (msg.isNone || file.isNone || function.isNone || decide (line < 0)) = true
    · obtain ⟨code, text, h⟩ := hsame SP_LOGGER_MSG.SP_LOGGER_INVAlID_ARGUMENT
      exact ⟨code, text, fun w hl => by
        simp only [Call.run, spLoggerPrintError, hl, hv, if_true]; exact h w hl⟩
    · obtain ⟨code, text, h⟩ := generic_live wr lg .SP_LOGGER_ERROR_MSG msg 1 file function line
      exact ⟨code, text, fun w hl => by
        simp only [Call.run, spLoggerPrintError, hl]; rw [if_neg hv]; exact h w hl⟩
  | printWarning msg file function line =>
    by_cases hv : (msg.isNone || file.isNone || function.isNone || decide (line < 0)) = true
    · obtain ⟨code, text, h⟩ := hsame SP_LOGGER_MSG.SP_LOGGER_INVAlID_ARGUMENT
      exact ⟨code, text, fun w hl => by
        simp only [Call.run, spLoggerPrintWarning, hl, hv, if_true]; exact h w hl⟩
    · by_cases hg : lg.level.toInt ≥ SP_LOGGER_LEVEL.SP_LOGGER_WARNING_ERROR_LEVEL.toInt
      · obtain ⟨code, text, h⟩ :=
          generic_live wr lg .SP_LOGGER_WARNING_MSG msg 1 file function line
        exact ⟨code, text, fun w hl => by
          simp only [Call.run, spLoggerPrintWarning, hl]
          rw [if_neg hv, if_pos hg]; exact h w hl⟩
      · obtain ⟨code, text, h⟩ := hsame SP_LOGGER_MSG.SP_LOGGER_SUCCESS
        exact ⟨code, text, fun w hl => by
          simp only [Call.run, spLoggerPrintWarning, hl]
          rw [if_neg hv, if_neg hg]; exact h w hl⟩
  | printInfo msg =>
    by_cases hv : msg.isNone = true
    · obtain ⟨code, text, h⟩ := hsame SP_LOGGER_MSG.SP_LOGGER_INVAlID_ARGUMENT
      exact ⟨code, text, fun w hl => by
        simp only [Call.run, spLoggerPrintInfo, hl, hv, if_true]; exact h w hl⟩
    · by_cases hg : lg.level.toInt ≥ SP_LOGGER_LEVEL.SP_LOGGER_INFO_WARNING_ERROR_LEVEL.toInt
      · obtain ⟨code, text, h⟩ := generic_live wr lg .SP_LOGGER_INFO_MSG msg 0 none none 0
        exact ⟨code, text, fun w hl => by
          simp only [Call.run, spLoggerPrintInfo, hl]
          rw [if_neg hv, if_pos hg]; exact h w hl⟩
      · obtain ⟨code, text, h⟩ := hsame SP_LOGGER_MSG.SP_LOGGER_SUCCESS
        exact ⟨code, text, fun w hl => by
          simp only [Call.run, spLoggerPrintInfo, hl]
          rw [if_neg hv, if_neg hg]; exact h w hl⟩
  | printDebug msg file function line =>
    by_cases hv : (msg.isNone || file.isNone || function.isNone || decide (line < 0)) = true
    · obtain ⟨code, text, h⟩ := hsame SP_LOGGER_MSG.SP_LOGGER_INVAlID_ARGUMENT
      exact ⟨code, text, fun w hl => by
        simp only [Call.run, spLoggerPrintDebug, hl, hv, if_true]; exact h w hl⟩
    · by_cases hg : lg.level = SP_LOGGER_LEVEL.SP_LOGGER_DEBUG_INFO_WARNING_ERROR_LEVEL
      · obtain ⟨code, text, h⟩ :=
          generic_live wr lg .SP_LOGGER_DEBUG_MSG msg 1 file function line
        exact ⟨code, text, fun w hl => by
          simp only [Call.run, spLoggerPrintDebug, hl]
          rw [if_neg hv, if_pos hg]; exact h w hl⟩
      · obtain ⟨code, text, h⟩ := hsame SP_LOGGER_MSG.SP_LOGGER_SUCCESS
        exact ⟨code, text, fun w hl => by
          simp only [Call.run, spLoggerPrintDebug, hl]
          rw [if_neg hv, if_neg hg]; exact h w hl⟩
  | printMsg msg =>
    by_cases hv : msg.isNone = true
    · obtain ⟨code, text, h⟩ := hsame SP_LOGGER_MSG.SP_LOGGER_INVAlID_ARGUMENT
      exact ⟨code, text, fun w hl => by
        simp only [Call.run, spLoggerPrintMsg, hl, hv, if_true]; exact h w hl⟩
    · obtain ⟨code, text, h⟩ := generic_live wr lg .SP_LOGGER_NO_TITLE_MSG msg 0 none none 0
      exact ⟨code, text, fun w hl => by
        simp only [Call.run, spLoggerPrintMsg, hl]; rw [if_neg hv]; exact h w hl⟩

/-- Creation from an absent state, allocation and open succeeding: the instance that results
is fixed by the filename and the level. -/
theorem spLoggerCreate_absent (w : World) (filename : Option String)
    (level : SP_LOGGER_LEVEL) (habsent : w.logger = none) :
    (spLoggerCreate true true w filename level).1 = SP_LOGGER_MSG.SP_LOGGER_SUCCESS
      ∧ (spLoggerCreate true true w filename level).2.logger =
        some ⟨(match filename with
                | none => FILE.stdout
                | some name => FILE.file name), filename.isNone, level⟩ := by
  cases filename <;> simp [spLoggerCreate, habsent, fopen]

/-! ## Lifecycle -/

/-- C1: on a state in which an instance is live, `spLoggerCreate` returns
`SP_LOGGER_DEFINED` for every filename (absent or present) and every level, whatever
`malloc` and `fopen` would have answered, and the state it leaves is the state it found:
the live instance keeps its sink, its `isStdOut` flag and its level, and no stream has been
opened. -/
theorem spLoggerCreate_live_defined (mallocOk fopenOk : Bool) (w : World) (lg : sp_logger_t)
    (filename : Option String) (level : SP_LOGGER_LEVEL) (hlive : w.logger = some lg) :
    spLoggerCreate mallocOk fopenOk w filename level = (SP_LOGGER_MSG.SP_LOGGER_DEFINED, w)
      ∧ (spLoggerCreate mallocOk fopenOk w filename level).2.logger = some lg
      ∧ (spLoggerCreate mallocOk fopenOk w filename level).2.opened = w.opened := by
  have h : spLoggerCreate mallocOk fopenOk w filename level
      = (SP_LOGGER_MSG.SP_LOGGER_DEFINED, w) := by
    simp [spLoggerCreate, hlive]
  rw [h]
  exact ⟨rfl, hlive, rfl⟩

theorem spLoggerCreate_live_defined_witness :
    demoWorld.logger = some ⟨FILE.file "log.txt", false,
        SP_LOGGER_LEVEL.SP_LOGGER_DEBUG_INFO_WARNING_ERROR_LEVEL⟩
      ∧ spLoggerCreate true true demoWorld (some "other.txt")
          SP_LOGGER_LEVEL.SP_LOGGER_ERROR_LEVEL = (SP_LOGGER_MSG.SP_LOGGER_DEFINED, demoWorld)
      ∧ (spLoggerCreate true true demoWorld (some "other.txt")
          SP_LOGGER_LEVEL.SP_LOGGER_ERROR_LEVEL).2.opened = [FILE.file "log.txt"] :=
  ⟨rfl,
    (spLoggerCreate_live_defined true true demoWorld _ (some "other.txt")
      SP_LOGGER_LEVEL.SP_LOGGER_ERROR_LEVEL rfl).1,
    by decide⟩

/-- C10: take any state `s` and create a logger at level `L1` in it; after `spLoggerDestroy`,
`spLoggerCreate` with level `L2` (allocation and open succeeding) returns
`SP_LOGGER_SUCCESS`, and the instance it leaves is the instance that the same call leaves
from the start state.  For every message operation, all arguments and all outcomes of the
writes, the two loggers return the same code and append the same text to the same sink:
`L1`, and everything else of the earlier instance, has no effect. -/
theorem recreate_is_fresh (s : World) (m1 o1 : Bool) (f1 f2 : Option String)
    (L1 L2 : SP_LOGGER_LEVEL) :
    (spLoggerCreate true true (spLoggerDestroy (spLoggerCreate m1 o1 s f1 L1).2) f2 L2).1
        = SP_LOGGER_MSG.SP_LOGGER_SUCCESS
      ∧ (spLoggerCreate true true World.start f2 L2).1 = SP_LOGGER_MSG.SP_LOGGER_SUCCESS
      ∧ (spLoggerCreate true true (spLoggerDestroy (spLoggerCreate m1 o1 s f1 L1).2) f2
          L2).2.logger = (spLoggerCreate true true World.start f2 L2).2.logger
      ∧ ∀ (c : Call) (wr : List WriteOutcome), ∃ code sink text,
          c.run wr (spLoggerCreate true true
              (spLoggerDestroy (spLoggerCreate m1 o1 s f1 L1).2) f2 L2).2
            = (code, (spLoggerCreate true true
                (spLoggerDestroy (spLoggerCreate m1 o1 s f1 L1).2) f2 L2).2.append sink text)
          ∧ c.run wr (spLoggerCreate true true World.start f2 L2).2
            = (code, (spLoggerCreate true true World.start f2 L2).2.append sink text) := by
  have h1 := spLoggerCreate_absent (spLoggerDestroy (spLoggerCreate m1 o1 s f1 L1).2) f2 L2
    (spLoggerDestroy_logger _)
  have h2 := spLoggerCreate_absent World.start f2 L2 rfl
  refine ⟨h1.1, h2.1, h1.2.trans h2.2.symm, fun c wr => ?_⟩
  obtain ⟨code, text, h⟩ := run_live wr _ c
  exact ⟨code, _, text, h _ h1.2, h _ h2.2⟩

/-! ## Message operations -/

/-- C2: on a live logger at any level, with `msg`, `file` and `function` present and
`line >= 0`, when every write succeeds `spLoggerPrintError` returns `SP_LOGGER_SUCCESS` and
the state it leaves is the state it found with exactly the text
`---ERROR---\n- file: <file>\n- function: <function>\n- line: <line in decimal>\n- message: <msg>\n`
appended to the sink of the logger. -/
theorem spLoggerPrintError_record (wr : List WriteOutcome) (w : World) (lg : sp_logger_t)
    (msg file function : String) (line : Int) (hlive : w.logger = some lg)
    (hline : 0 ≤ line) (hwr : ∀ o ∈ wr, o = WriteOutcome.ok) :
    spLoggerPrintError wr w (some msg) (some file) (some function) line =
      (SP_LOGGER_MSG.SP_LOGGER_SUCCESS, w.append lg.outputChannel
        ("---ERROR---\n- file: " ++ file ++ "\n- function: " ++ function ++ "\n- line: "
          ++ Nat.repr line.toNat ++ "\n- message: " ++ msg ++ "\n")) :=
  printError_ok wr w lg msg file function line hlive hline hwr

theorem spLoggerPrintError_record_witness :
    demoWorld.logger = some ⟨FILE.file "log.txt", false,
        SP_LOGGER_LEVEL.SP_LOGGER_DEBUG_INFO_WARNING_ERROR_LEVEL⟩
      ∧ (0 : Int) ≤ 42 ∧ (∀ o ∈ [WriteOutcome.ok, WriteOutcome.ok, WriteOutcome.ok, WriteOutcome.ok,
          WriteOutcome.ok], o = WriteOutcome.ok)
      ∧ spLoggerPrintError [.ok, .ok, .ok, .ok, .ok] demoWorld (some "boom") (some "f.c")
          (some "g") 42 =
        (SP_LOGGER_MSG.SP_LOGGER_SUCCESS, demoWorld.append (FILE.file "log.txt")
          "---ERROR---\n- file: f.c\n- function: g\n- line: 42\n- message: boom\n")
      ∧ (spLoggerPrintError [.ok, .ok, .ok, .ok, .ok] demoWorld (some "boom")
          (some "f.c") (some "g") 42).2.content (FILE.file "log.txt") =
          "---ERROR---\n- file: f.c\n- function: g\n- line: 42\n- message: boom\n" :=
  ⟨rfl, by decide, by decide,
    (spLoggerPrintError_record [.ok, .ok, .ok, .ok, .ok] demoWorld _ "boom" "f.c" "g" 42
      rfl (by decide) (by decide)).trans
      (congrArg (fun t => (SP_LOGGER_MSG.SP_LOGGER_SUCCESS,
        demoWorld.append (FILE.file "log.txt") t)) (by decide)),
    by decide⟩

/-- C3: on a live logger whose level is the strictest one (`SP_LOGGER_ERROR_LEVEL`), with
valid arguments, `spLoggerPrintWarning`, `spLoggerPrintInfo` and `spLoggerPrintDebug` return
`SP_LOGGER_SUCCESS` and leave the state, hence the sink, as it was, whatever the outcome a
write would have had; `spLoggerPrintError` and `spLoggerPrintMsg`, when the writes succeed,
return `SP_LOGGER_SUCCESS` and append a non-empty record to the sink of the logger. -/
theorem strictest_level_outputs (wr : List WriteOutcome) (w : World) (lg : sp_logger_t)
    (msg file function : String) (line : Int) (hlive : w.logger = some lg)
    (hlevel : lg.level = SP_LOGGER_LEVEL.SP_LOGGER_ERROR_LEVEL) (hline : 0 ≤ line) :
    spLoggerPrintWarning wr w (some msg) (some file) (some function) line
        = (SP_LOGGER_MSG.SP_LOGGER_SUCCESS, w)
      ∧ spLoggerPrintInfo wr w (some msg) = (SP_LOGGER_MSG.SP_LOGGER_SUCCESS, w)
      ∧ spLoggerPrintDebug wr w (some msg) (some file) (some function) line
        = (SP_LOGGER_MSG.SP_LOGGER_SUCCESS, w)
      ∧ ((∀ o ∈ wr, o = WriteOutcome.ok) →
          (∃ record, record ≠ "" ∧
            spLoggerPrintError wr w (some msg) (some file) (some function) line
              = (SP_LOGGER_MSG.SP_LOGGER_SUCCESS, w.append lg.outputChannel record)) ∧
          (∃ record, record ≠ "" ∧
            spLoggerPrintMsg wr w (some msg)
              = (SP_LOGGER_MSG.SP_LOGGER_SUCCESS, w.append lg.outputChannel record))) := by
  refine ⟨?_, ?_, ?_, fun hwr =>
    ⟨⟨_, append_newline_ne_empty _, printError_ok wr w lg msg file function line hlive hline hwr⟩,
      ⟨_, append_newline_ne_empty _, printMsg_ok wr w lg msg hlive hwr⟩⟩⟩
  · simp [spLoggerPrintWarning, hlive, hlevel, not_lt.mpr hline, SP_LOGGER_LEVEL.toInt]
  · simp [spLoggerPrintInfo, hlive, hlevel, SP_LOGGER_LEVEL.toInt]
  · simp [spLoggerPrintDebug, hlive, hlevel, not_lt.mpr hline]

theorem strictest_level_outputs_witness :
    strictWorld.logger = some ⟨FILE.stdout, true, SP_LOGGER_LEVEL.SP_LOGGER_ERROR_LEVEL⟩
      ∧ (0 : Int) ≤ 7
      ∧ spLoggerPrintWarning [] strictWorld (some "m") (some "f.c") (some "g") 7
        = (SP_LOGGER_MSG.SP_LOGGER_SUCCESS, strictWorld)
      ∧ (spLoggerPrintError [] strictWorld (some "m") (some "f.c") (some "g") 7).2.content
          FILE.stdout = "---ERROR---\n- file: f.c\n- function: g\n- line: 7\n- message: m\n" :=
  ⟨rfl, by decide,
    (strictest_level_outputs [] strictWorld _ "m" "f.c" "g" 7 rfl rfl (by decide)).1,
    by decide⟩

/-- C4: on a live logger and a present `msg`, `spLoggerPrintInfo` returns
`SP_LOGGER_SUCCESS` in every case; at the levels `SP_LOGGER_INFO_WARNING_ERROR_LEVEL` and
`SP_LOGGER_DEBUG_INFO_WARNING_ERROR_LEVEL`, when the writes succeed, it appends exactly
`---INFO---\n- message: <msg>\n` to the sink (no file, function or line lines); at the two
lower levels it leaves the state as it was. -/
theorem spLoggerPrintInfo_record (wr : List WriteOutcome) (w : World) (lg : sp_logger_t)
    (msg : String) (hlive : w.logger = some lg) :
    ((lg.level = SP_LOGGER_LEVEL.SP_LOGGER_INFO_WARNING_ERROR_LEVEL
        ∨ lg.level = SP_LOGGER_LEVEL.SP_LOGGER_DEBUG_INFO_WARNING_ERROR_LEVEL) →
      (∀ o ∈ wr, o = WriteOutcome.ok) →
      spLoggerPrintInfo wr w (some msg) =
        (SP_LOGGER_MSG.SP_LOGGER_SUCCESS,
          w.append lg.outputChannel ("---INFO---\n- message: " ++ msg ++ "\n")))
    ∧ ((lg.level = SP_LOGGER_LEVEL.SP_LOGGER_ERROR_LEVEL
        ∨ lg.level = SP_LOGGER_LEVEL.SP_LOGGER_WARNING_ERROR_LEVEL) →
      spLoggerPrintInfo wr w (some msg) = (SP_LOGGER_MSG.SP_LOGGER_SUCCESS, w)) := by
  have e : "---INFO---\n- message: " = "---INFO---" ++ "\n" ++ "- message: " := by decide
  constructor
  · intro hlevel hwr
    have h := generic_short_ok wr w lg .SP_LOGGER_INFO_MSG msg hlive hwr
    simp only [getMsgTitleByType, SP_LOGGER_INFO_MSG_TITLE] at h
    rw [e, ← h]
    rcases hlevel with hl | hl <;>
      simp [spLoggerPrintInfo, hlive, hl, SP_LOGGER_LEVEL.toInt]
  · intro hlevel
    rcases hlevel with hl | hl <;>
      simp [spLoggerPrintInfo, hlive, hl, SP_LOGGER_LEVEL.toInt]

theorem spLoggerPrintInfo_record_witness :
    demoWorld.logger = some ⟨FILE.file "log.txt", false,
        SP_LOGGER_LEVEL.SP_LOGGER_DEBUG_INFO_WARNING_ERROR_LEVEL⟩
      ∧ spLoggerPrintInfo [] demoWorld (some "hi") =
        (SP_LOGGER_MSG.SP_LOGGER_SUCCESS,
          demoWorld.append (FILE.file "log.txt") ("---INFO---\n- message: " ++ "hi" ++ "\n"))
      ∧ (spLoggerPrintInfo [] demoWorld (some "hi")).2.content (FILE.file "log.txt")
          = "---INFO---\n- message: hi\n"
      ∧ (spLoggerPrintInfo [] strictWorld (some "hi")).2.content FILE.stdout = "" :=
  ⟨rfl,
    (spLoggerPrintInfo_record [] demoWorld _ "hi" rfl).1 (Or.inr rfl) (by simp),
    by decide, by decide⟩

/-- C5: in the absent state, be it the start state or a state `spLoggerDestroy` returned,
each of the five message operations returns `SP_LOGGER_UNDIFINED` for every choice of
arguments (absent strings and negative lines included) and leaves the state as it was:
nothing is written and no instance exists afterwards. -/
theorem absent_state_undefined (wr : List WriteOutcome) (w0 w : World)
    (habsent : w = World.start ∨ w = spLoggerDestroy w0)
    (msg file function : Option String) (line : Int) :
    spLoggerPrintError wr w msg file function line = (SP_LOGGER_MSG.SP_LOGGER_UNDIFINED, w)
      ∧ spLoggerPrintWarning wr w msg file function line
        = (SP_LOGGER_MSG.SP_LOGGER_UNDIFINED, w)
      ∧ spLoggerPrintInfo wr w msg = (SP_LOGGER_MSG.SP_LOGGER_UNDIFINED, w)
      ∧ spLoggerPrintDebug wr w msg file function line
        = (SP_LOGGER_MSG.SP_LOGGER_UNDIFINED, w)
      ∧ spLoggerPrintMsg wr w msg = (SP_LOGGER_MSG.SP_LOGGER_UNDIFINED, w)
      ∧ w.logger = none := by
  have hnone : w.logger = none := by
    rcases habsent with h | h
    · rw [h]; rfl
    · rw [h]; exact spLoggerDestroy_logger w0
  simp [spLoggerPrintError, spLoggerPrintWarning, spLoggerPrintInfo, spLoggerPrintDebug,
    spLoggerPrintMsg, hnone]

theorem absent_state_undefined_witness :
    (spLoggerDestroy demoWorld = World.start ∨ spLoggerDestroy demoWorld = spLoggerDestroy demoWorld)
      ∧ spLoggerPrintError [] (spLoggerDestroy demoWorld) none none none (-1)
        = (SP_LOGGER_MSG.SP_LOGGER_UNDIFINED, spLoggerDestroy demoWorld)
      ∧ (spLoggerPrintMsg [] (spLoggerDestroy demoWorld) (some "m")).2.content
          (FILE.file "log.txt") = "" :=
  ⟨Or.inr rfl,
    (absent_state_undefined [] demoWorld (spLoggerDestroy demoWorld) (Or.inr rfl)
      none none none (-1)).1,
    by decide⟩

/-- C6: on a live logger, `spLoggerPrintError` returns `SP_LOGGER_INVAlID_ARGUMENT` and
leaves the state as it was (nothing is written) whenever `msg`, `file` or `function` is
null or `line` is negative; and when the three strings are present and `line >= 0` the
code it returns is never `SP_LOGGER_INVAlID_ARGUMENT`, whatever the writes do. -/
theorem spLoggerPrintError_invalid_iff (wr : List WriteOutcome) (w : World) (lg : sp_logger_t)
    (msg file function : Option String) (line : Int) (hlive : w.logger = some lg) :
    ((msg = none ∨ file = none ∨ function = none ∨ line < 0) →
        spLoggerPrintError wr w msg file function line
          = (SP_LOGGER_MSG.SP_LOGGER_INVAlID_ARGUMENT, w))
      ∧ ((msg ≠ none ∧ file ≠ none ∧ function ≠ none ∧ 0 ≤ line) →
        (spLoggerPrintError wr w msg file function line).1
          ≠ SP_LOGGER_MSG.SP_LOGGER_INVAlID_ARGUMENT) := by
  constructor
  · intro hbad
    exact metadata_rejected w lg msg file function line hlive hbad
      |>.1 wr
  · rintro ⟨hm, hf, hg, hline⟩
    have hargs := metadata_accepted msg file function line hm hf hg hline
    have h := spLoggerPrintGenericMsg_eq wr w lg .SP_LOGGER_ERROR_MSG msg 1 file function
      line hlive hargs.2
    simp only [spLoggerPrintError, hlive, hargs.1, Bool.false_eq_true, if_false, h]
    rcases emit_code wr (genericLines (getMsgTitleByType .SP_LOGGER_ERROR_MSG) msg 1 file
      function line) with hc | hc <;> rw [hc] <;> decide

theorem spLoggerPrintError_invalid_iff_witness :
    demoWorld.logger = some ⟨FILE.file "log.txt", false,
        SP_LOGGER_LEVEL.SP_LOGGER_DEBUG_INFO_WARNING_ERROR_LEVEL⟩
      ∧ spLoggerPrintError [] demoWorld (some "boom") (some "f.c") (some "g") (-1)
        = (SP_LOGGER_MSG.SP_LOGGER_INVAlID_ARGUMENT, demoWorld)
      ∧ (spLoggerPrintError [] demoWorld (some "boom") (some "f.c") (some "g") (-1)).2.content
          (FILE.file "log.txt") = "" :=
  ⟨rfl,
    (spLoggerPrintError_invalid_iff [] demoWorld _ (some "boom") (some "f.c") (some "g") (-1)
      rfl).1 (Or.inr (Or.inr (Or.inr (by decide)))),
    by decide⟩

/-- C7: validation comes before the gate.  On a live logger whose level would suppress the
message (`spLoggerPrintWarning` at `SP_LOGGER_ERROR_LEVEL`, `spLoggerPrintDebug` at any
level other than `SP_LOGGER_DEBUG_INFO_WARNING_ERROR_LEVEL`), a call with a null `msg`, a
null `file`, a null `function` or a negative `line` returns `SP_LOGGER_INVAlID_ARGUMENT`,
not `SP_LOGGER_SUCCESS`, and leaves the state as it was (nothing is written). -/
theorem validation_before_gate (wr : List WriteOutcome) (w : World) (lg : sp_logger_t)
    (msg file function : Option String) (line : Int) (hlive : w.logger = some lg)
    (hbad : msg = none ∨ file = none ∨ function = none ∨ line < 0) :
    (lg.level = SP_LOGGER_LEVEL.SP_LOGGER_ERROR_LEVEL →
        spLoggerPrintWarning wr w msg file function line
          = (SP_LOGGER_MSG.SP_LOGGER_INVAlID_ARGUMENT, w))
      ∧ (lg.level ≠ SP_LOGGER_LEVEL.SP_LOGGER_DEBUG_INFO_WARNING_ERROR_LEVEL →
        spLoggerPrintDebug wr w msg file function line
          = (SP_LOGGER_MSG.SP_LOGGER_INVAlID_ARGUMENT, w)) :=
  ⟨fun _ => (metadata_rejected w lg msg file function line hlive hbad).2.1 wr,
    fun _ => (metadata_rejected w lg msg file function line hlive hbad).2.2 wr⟩

theorem validation_before_gate_witness :
    strictWorld.logger = some ⟨FILE.stdout, true, SP_LOGGER_LEVEL.SP_LOGGER_ERROR_LEVEL⟩
      ∧ ((some "m" : Option String) = none ∨ (none : Option String) = none
          ∨ (some "g" : Option String) = none ∨ (3 : Int) < 0)
      ∧ spLoggerPrintWarning [] strictWorld (some "m") none (some "g") 3
          = (SP_LOGGER_MSG.SP_LOGGER_INVAlID_ARGUMENT, strictWorld)
      ∧ spLoggerPrintDebug [] strictWorld (some "m") none (some "g") 3
          = (SP_LOGGER_MSG.SP_LOGGER_INVAlID_ARGUMENT, strictWorld) :=
  ⟨rfl, Or.inr (Or.inl rfl),
    (validation_before_gate [] strictWorld _ (some "m") none (some "g") 3 rfl
      (Or.inr (Or.inl rfl))).1 rfl,
    (validation_before_gate [] strictWorld _ (some "m") none (some "g") 3 rfl
      (Or.inr (Or.inl rfl))).2 (by decide)⟩

/-- C8: the code evaluated where it departs from the claim.  On the file-backed logger over
an empty file, `spLoggerPrintMsg` with the message `hi` and a write that succeeds returns
`SP_LOGGER_SUCCESS` and the sink holds `- message: hi\n`: the label of the message section
stands before the message text, so the sink does not hold the raw line `hi\n`. -/
theorem spLoggerPrintMsg_writes_label :
    (spLoggerPrintMsg [.ok] demoWorld (some "hi")).1 = SP_LOGGER_MSG.SP_LOGGER_SUCCESS
      ∧ (spLoggerPrintMsg [.ok] demoWorld (some "hi")).2.content (FILE.file "log.txt")
          = "- message: hi\n"
      ∧ (spLoggerPrintMsg [.ok] demoWorld (some "hi")).2.content (FILE.file "log.txt")
          ≠ demoWorld.content (FILE.file "log.txt") ++ ("hi" ++ "\n") := by
  decide

/-! ## Auxiliary lemmas, continued -/

theorem string_append_cancel (a t1 t2 : String) (h : a ++ t1 = a ++ t2) : t1 = t2 := by
  have hd := congrArg String.data h
  rw [String.data_append, String.data_append] at hd
  exact String.ext (List.append_cancel_left hd)

theorem string_append_ne_empty (a b : String) (ha : a ≠ "") : a ++ b ≠ "" := by
  intro h
  apply ha
  have hd := congrArg String.data h
  rw [String.data_append] at hd
  exact String.ext (List.append_eq_nil.mp hd).1

theorem World.append_content (w : World) (ch : FILE) (t : String) :
    (w.append ch t).content ch = w.content ch ++ t := by
  simp [World.append]

theorem World.append_inj (w : World) (ch : FILE) (t1 t2 : String)
    (h : w.append ch t1 = w.append ch t2) : t1 = t2 := by
  have hc := congrArg (fun v : World => v.content ch) h
  simp only [World.append_content] at hc
  exact string_append_cancel _ _ _ hc

theorem World.append_ne_self (w : World) (ch : FILE) (t : String) (ht : t ≠ "") :
    w.append ch t ≠ w := by
  intro h
  apply ht
  have h2 : w.append ch t = w.append ch "" := by rw [World.append_empty]; exact h
  exact World.append_inj w ch t "" h2

/-- The first text the generic printer writes ends in a newline, so a record is never
empty. -/
theorem genericLines_joined_ne_empty (title msg : Option String) (include_func_data : Int)
    (file function : Option String) (line : Int) :
    (genericLines title msg include_func_data file function line).foldr
      (fun a b => a ++ b) "" ≠ "" := by
  have hex : ∃ x rest, genericLines title msg include_func_data file function line
      = (x ++ "\n") :: rest := by
    cases title <;> by_cases hinc : include_func_data = 0 <;>
      simp only [genericLines, hinc, bne_self_eq_false, Bool.false_eq_true, if_false,
        bne_iff_ne, ne_eq, not_false_eq_true, if_true, List.nil_append, List.cons_append,
        List.cons.injEq, exists_and_left, exists_eq', and_true] <;>
      exact ⟨_, rfl⟩
  obtain ⟨x, rest, hx⟩ := hex
  rw [hx]
  exact string_append_ne_empty _ _ (append_newline_ne_empty x)

/-- A valid call whose level passes the gate is a run of checked writes of its lines. -/
theorem run_admitted (wr : List WriteOutcome) (w : World) (lg : sp_logger_t) (c : Call)
    (hlive : w.logger = some lg) (hvalid : c.valid = true)
    (hadm : c.minLevel.toInt ≤ lg.level.toInt) :
    c.run wr w = ((emit wr c.lines).1, w.append lg.outputChannel (emit wr c.lines).2) := by
  cases c with
  | printError msg file function line =>
    obtain ⟨hm, hf, hg, hline⟩ := valid_metadata msg file function line hvalid
    have ha := metadata_accepted msg file function line hm hf hg hline
    simp only [Call.run, spLoggerPrintError, hlive, ha.1, Bool.false_eq_true, if_false]
    exact spLoggerPrintGenericMsg_eq wr w lg _ msg 1 file function line hlive ha.2
  | printWarning msg file function line =>
    obtain ⟨hm, hf, hg, hline⟩ := valid_metadata msg file function line hvalid
    have ha := metadata_accepted msg file function line hm hf hg hline
    have hlevel : lg.level.toInt ≥ SP_LOGGER_LEVEL.SP_LOGGER_WARNING_ERROR_LEVEL.toInt := hadm
    simp only [Call.run, spLoggerPrintWarning, hlive, ha.1, Bool.false_eq_true, if_false,
      hlevel, if_true]
    exact spLoggerPrintGenericMsg_eq wr w lg _ msg 1 file function line hlive ha.2
  | printInfo msg =>
    obtain ⟨m, rfl⟩ := Option.isSome_iff_exists.mp hvalid
    have hlevel : lg.level.toInt ≥ SP_LOGGER_LEVEL.SP_LOGGER_INFO_WARNING_ERROR_LEVEL.toInt :=
      hadm
    simp only [Call.run, spLoggerPrintInfo, hlive, Option.isNone_some, Bool.false_eq_true,
      if_false, hlevel, if_true]
    exact spLoggerPrintGenericMsg_eq wr w lg _ (some m) 0 none none 0 hlive (by simp)
  | printDebug msg file function line =>
    obtain ⟨hm, hf, hg, hline⟩ := valid_metadata msg file function line hvalid
    have ha := metadata_accepted msg file function line hm hf hg hline
    have hlevel : lg.level = SP_LOGGER_LEVEL.SP_LOGGER_DEBUG_INFO_WARNING_ERROR_LEVEL := by
      revert hadm
      cases lg.level <;> simp [Call.minLevel, SP_LOGGER_LEVEL.toInt]
    simp only [Call.run, spLoggerPrintDebug, hlive, ha.1, Bool.false_eq_true, if_false,
      hlevel, if_true]
    exact spLoggerPrintGenericMsg_eq wr w lg _ msg 1 file function line hlive ha.2
  | printMsg msg =>
    obtain ⟨m, rfl⟩ := Option.isSome_iff_exists.mp hvalid
    simp only [Call.run, spLoggerPrintMsg, hlive, Option.isNone_some, Bool.false_eq_true,
      if_false]
    exact spLoggerPrintGenericMsg_eq wr w lg _ (some m) 0 none none 0 hlive (by simp)

/-- A valid call whose level does not pass the gate returns success and changes nothing. -/
theorem run_suppressed (wr : List WriteOutcome) (w : World) (lg : sp_logger_t) (c : Call)
    (hlive : w.logger = some lg) (hvalid : c.valid = true)
    (hlow : ¬ c.minLevel.toInt ≤ lg.level.toInt) :
    c.run wr w = (SP_LOGGER_MSG.SP_LOGGER_SUCCESS, w) := by
  cases c with
  | printError msg file function line =>
    exfalso; apply hlow
    cases lg.level <;> simp [Call.minLevel, SP_LOGGER_LEVEL.toInt]
  | printWarning msg file function line =>
    obtain ⟨hm, hf, hg, hline⟩ := valid_metadata msg file function line hvalid
    have ha := metadata_accepted msg file function line hm hf hg hline
    have hlevel : ¬ lg.level.toInt ≥ SP_LOGGER_LEVEL.SP_LOGGER_WARNING_ERROR_LEVEL.toInt :=
      hlow
    simp only [Call.run, spLoggerPrintWarning, hlive, ha.1, Bool.false_eq_true, if_false,
      hlevel]
  | printInfo msg =>
    obtain ⟨m, rfl⟩ := Option.isSome_iff_exists.mp hvalid
    have hlevel :
        ¬ lg.level.toInt ≥ SP_LOGGER_LEVEL.SP_LOGGER_INFO_WARNING_ERROR_LEVEL.toInt := hlow
    simp only [Call.run, spLoggerPrintInfo, hlive, Option.isNone_some, Bool.false_eq_true,
      if_false, hlevel]
  | printDebug msg file function line =>
    obtain ⟨hm, hf, hg, hline⟩ := valid_metadata msg file function line hvalid
    have ha := metadata_accepted msg file function line hm hf hg hline
    have hlevel : ¬ lg.level = SP_LOGGER_LEVEL.SP_LOGGER_DEBUG_INFO_WARNING_ERROR_LEVEL := by
      intro h
      apply hlow
      rw [h]
      simp [Call.minLevel]
    simp only [Call.run, spLoggerPrintDebug, hlive, ha.1, Bool.false_eq_true, if_false,
      hlevel]
  | printMsg msg =>
    exfalso; apply hlow
    cases lg.level <;> simp [Call.minLevel, SP_LOGGER_LEVEL.toInt]

/-- A message operation changes nothing but the text held by the sink of the live logger. -/
theorem run_frame (wr : List WriteOutcome) (w : World) (c : Call) :
    (c.run wr w).2.logger = w.logger ∧ (c.run wr w).2.opened = w.opened
      ∧ ∀ ch, (∀ lg, w.logger = some lg → ch ≠ lg.outputChannel) →
          (c.run wr w).2.content ch = w.content ch := by
  cases hl : w.logger with
  | none =>
    have h : c.run wr w = (SP_LOGGER_MSG.SP_LOGGER_UNDIFINED, w) := by
      cases c <;>
        simp [Call.run, spLoggerPrintError, spLoggerPrintWarning, spLoggerPrintInfo,
          spLoggerPrintDebug, spLoggerPrintMsg, hl]
    rw [h]
    exact ⟨hl, rfl, fun _ _ => rfl⟩
  | some lg =>
    obtain ⟨code, text, h⟩ := run_live wr lg c
    rw [h w hl]
    refine ⟨hl, rfl, fun ch hch => ?_⟩
    have hne : ch ≠ lg.outputChannel := hch lg rfl
    simp [World.append, Function.update_noteq hne]

theorem runCalls_logger (calls : List (List WriteOutcome × Call)) (w : World) :
    (runCalls calls w).logger = w.logger ∧ (runCalls calls w).opened = w.opened := by
  induction calls generalizing w with
  | nil => exact ⟨rfl, rfl⟩
  | cons head rest ih =>
    obtain ⟨wr, c⟩ := head
    have hf := run_frame wr w c
    have hr := ih (c.run wr w).2
    exact ⟨hr.1.trans hf.1, hr.2.trans hf.2.1⟩

theorem spLoggerCreate_success_level (m o : Bool) (s : World) (f : Option String)
    (L : SP_LOGGER_LEVEL)
    (h : (spLoggerCreate m o s f L).1 = SP_LOGGER_MSG.SP_LOGGER_SUCCESS) :
    (spLoggerCreate m o s f L).2.logger.map (fun lg => lg.level) = some L := by
  revert h
  unfold spLoggerCreate
  cases hs : s.logger <;> cases m <;> cases o <;> cases f <;> simp [fopen]

/-! ## Lifecycle, continued -/

/-- C11: `spLoggerDestroy` always ends in the absent state, on the absent state it changes
nothing (the state it returns is the state it was given: no stream is closed, nothing is
written), and applying it twice is the same as applying it once. -/
theorem spLoggerDestroy_idempotent (s : World) :
    (spLoggerDestroy s).logger = none
      ∧ (s.logger = none → spLoggerDestroy s = s)
      ∧ spLoggerDestroy (spLoggerDestroy s) = spLoggerDestroy s := by
  have habs : ∀ w : World, w.logger = none → spLoggerDestroy w = w := by
    intro w hw
    simp [spLoggerDestroy, hw]
  exact ⟨spLoggerDestroy_logger s, habs s, habs _ (spLoggerDestroy_logger s)⟩

/-- C12: from the absent state, with the allocation succeeding, for every present filename
whose open fails and every level, `spLoggerCreate` returns `SP_LOGGER_CANNOT_OPEN_FILE` and
the state it leaves is the absent state it found: every message operation that follows
returns `SP_LOGGER_UNDIFINED`, and a `spLoggerCreate` that follows never returns
`SP_LOGGER_DEFINED`. -/
theorem spLoggerCreate_open_failure (w : World) (name : String) (level : SP_LOGGER_LEVEL)
    (habsent : w.logger = none) :
    spLoggerCreate true false w (some name) level
        = (SP_LOGGER_MSG.SP_LOGGER_CANNOT_OPEN_FILE, w)
      ∧ (spLoggerCreate true false w (some name) level).2.logger = none
      ∧ (∀ (c : Call) (wr : List WriteOutcome),
          (c.run wr (spLoggerCreate true false w (some name) level).2).1
            = SP_LOGGER_MSG.SP_LOGGER_UNDIFINED)
      ∧ (∀ (m o : Bool) (f : Option String) (L : SP_LOGGER_LEVEL),
          (spLoggerCreate m o (spLoggerCreate true false w (some name) level).2 f L).1
            ≠ SP_LOGGER_MSG.SP_LOGGER_DEFINED) := by
  have h : spLoggerCreate true false w (some name) level
      = (SP_LOGGER_MSG.SP_LOGGER_CANNOT_OPEN_FILE, w) := by
    cases w
    simp_all [spLoggerCreate, fopen]
  rw [h]
  refine ⟨rfl, habsent, fun c wr => ?_, fun m o f L => ?_⟩
  · cases c <;>
      simp [Call.run, spLoggerPrintError, spLoggerPrintWarning, spLoggerPrintInfo,
        spLoggerPrintDebug, spLoggerPrintMsg, habsent]
  · cases m <;> cases o <;> cases f <;> simp [spLoggerCreate, habsent, fopen]

theorem spLoggerCreate_open_failure_witness :
    World.start.logger = none
      ∧ spLoggerCreate true false World.start (some "/no/such/dir/log.txt")
          SP_LOGGER_LEVEL.SP_LOGGER_INFO_WARNING_ERROR_LEVEL
        = (SP_LOGGER_MSG.SP_LOGGER_CANNOT_OPEN_FILE, World.start)
      ∧ (spLoggerCreate true true
          (spLoggerCreate true false World.start (some "/no/such/dir/log.txt")
            SP_LOGGER_LEVEL.SP_LOGGER_INFO_WARNING_ERROR_LEVEL).2 none
          SP_LOGGER_LEVEL.SP_LOGGER_ERROR_LEVEL).1 = SP_LOGGER_MSG.SP_LOGGER_SUCCESS :=
  ⟨rfl,
    (spLoggerCreate_open_failure World.start "/no/such/dir/log.txt"
      SP_LOGGER_LEVEL.SP_LOGGER_INFO_WARNING_ERROR_LEVEL rfl).1,
    by decide⟩

/-! ## Message operations, continued -/

/-- C14: on a live logger, with `msg`, `file` and `function` present, `line >= 0` and
every write succeeding, `spLoggerPrintWarning` at any level other than
`SP_LOGGER_ERROR_LEVEL` appends exactly
`---WARNING---\n- file: <file>\n- function: <function>\n- line: <line>\n- message: <msg>\n`
and `spLoggerPrintDebug` at `SP_LOGGER_DEBUG_INFO_WARNING_ERROR_LEVEL` appends exactly the
same text under the title `---DEBUG---`; both return `SP_LOGGER_SUCCESS`. -/
theorem warning_debug_records (wr : List WriteOutcome) (w : World) (lg : sp_logger_t)
    (msg file function : String) (line : Int) (hlive : w.logger = some lg)
    (hline : 0 ≤ line) (hwr : ∀ o ∈ wr, o = WriteOutcome.ok) :
    (lg.level ≠ SP_LOGGER_LEVEL.SP_LOGGER_ERROR_LEVEL →
        spLoggerPrintWarning wr w (some msg) (some file) (some function) line =
          (SP_LOGGER_MSG.SP_LOGGER_SUCCESS, w.append lg.outputChannel
            ("---WARNING---\n- file: " ++ file ++ "\n- function: " ++ function
              ++ "\n- line: " ++ Nat.repr line.toNat ++ "\n- message: " ++ msg ++ "\n")))
      ∧ (lg.level = SP_LOGGER_LEVEL.SP_LOGGER_DEBUG_INFO_WARNING_ERROR_LEVEL →
        spLoggerPrintDebug wr w (some msg) (some file) (some function) line =
          (SP_LOGGER_MSG.SP_LOGGER_SUCCESS, w.append lg.outputChannel
            ("---DEBUG---\n- file: " ++ file ++ "\n- function: " ++ function
              ++ "\n- line: " ++ Nat.repr line.toNat ++ "\n- message: " ++ msg ++ "\n"))) := by
  have ew : "---WARNING---\n- file: " = "---WARNING---" ++ "\n- file: " := by decide
  have ed : "---DEBUG---\n- file: " = "---DEBUG---" ++ "\n- file: " := by decide
  constructor
  · intro hlevel
    have hge : lg.level.toInt ≥ SP_LOGGER_LEVEL.SP_LOGGER_WARNING_ERROR_LEVEL.toInt := by
      revert hlevel
      cases lg.level <;> simp [SP_LOGGER_LEVEL.toInt]
    have h := generic_full_ok wr w lg .SP_LOGGER_WARNING_MSG "---WARNING---" msg file
      function line hlive rfl hline hwr
    rw [ew, ← h]
    simp [spLoggerPrintWarning, hlive, not_lt.mpr hline, hge]
  · intro hlevel
    have h := generic_full_ok wr w lg .SP_LOGGER_DEBUG_MSG "---DEBUG---" msg file
      function line hlive rfl hline hwr
    rw [ed, ← h]
    simp [spLoggerPrintDebug, hlive, not_lt.mpr hline, hlevel]

theorem warning_debug_records_witness :
    demoWorld.logger = some ⟨FILE.file "log.txt", false,
        SP_LOGGER_LEVEL.SP_LOGGER_DEBUG_INFO_WARNING_ERROR_LEVEL⟩
      ∧ (0 : Int) ≤ 9 ∧ (∀ o ∈ [WriteOutcome.ok, WriteOutcome.ok], o = WriteOutcome.ok)
      ∧ spLoggerPrintDebug [.ok, .ok] demoWorld (some "m") (some "a.c") (some "h") 9 =
          (SP_LOGGER_MSG.SP_LOGGER_SUCCESS, demoWorld.append (FILE.file "log.txt")
            "---DEBUG---\n- file: a.c\n- function: h\n- line: 9\n- message: m\n")
      ∧ (spLoggerPrintWarning [.ok, .ok] demoWorld (some "m") (some "a.c") (some "h")
          9).2.content (FILE.file "log.txt")
          = "---WARNING---\n- file: a.c\n- function: h\n- line: 9\n- message: m\n" :=
  ⟨rfl, by decide, by decide,
    ((warning_debug_records [.ok, .ok] demoWorld _ "m" "a.c" "h" 9 rfl (by decide)
      (by decide)).2 rfl).trans
      (congrArg (fun t => (SP_LOGGER_MSG.SP_LOGGER_SUCCESS,
        demoWorld.append (FILE.file "log.txt") t)) (by decide)),
    by decide⟩

/-- C13: the gate is monotonic in the level.  Take a valid call and two live loggers whose
levels are ordered (`ERROR_LEVEL < WARNING_ERROR_LEVEL < INFO_WARNING_ERROR_LEVEL <
DEBUG_INFO_WARNING_ERROR_LEVEL`).  Whenever the operation appends a non-empty text to the
sink of the logger of the lower level, it returns the same code and appends the same text
to the sink of the logger of the higher level; and, when the writes succeed, the
operation changes the state exactly when the level is at least the minimal level of the
call: `ERROR_LEVEL` for `printError` and `printMsg`, `WARNING_ERROR_LEVEL` for
`printWarning`, `INFO_WARNING_ERROR_LEVEL` for `printInfo`,
`DEBUG_INFO_WARNING_ERROR_LEVEL` for `printDebug`. -/
theorem gate_monotone (wr : List WriteOutcome) (c : Call) (lg lg2 : sp_logger_t) (w w2 : World)
    (hvalid : c.valid = true) (hlive : w.logger = some lg) (hlive2 : w2.logger = some lg2)
    (hle : lg.level.toInt ≤ lg2.level.toInt) :
    (∀ code text, text ≠ "" → c.run wr w = (code, w.append lg.outputChannel text) →
        c.run wr w2 = (code, w2.append lg2.outputChannel text))
      ∧ ((∀ o ∈ wr, o = WriteOutcome.ok) →
        ((c.run wr w).2 ≠ w ↔ c.minLevel.toInt ≤ lg.level.toInt)) := by
  constructor
  · intro code text htext hrun
    by_cases hadm : c.minLevel.toInt ≤ lg.level.toInt
    · have h1 := run_admitted wr w lg c hlive hvalid hadm
      have h2 := run_admitted wr w2 lg2 c hlive2 hvalid (le_trans hadm hle)
      rw [h1] at hrun
      have hcode := congrArg Prod.fst hrun
      have htxt := World.append_inj w lg.outputChannel _ _ (congrArg Prod.snd hrun)
      simp only at hcode
      rw [h2, hcode, htxt]
    · have h1 := run_suppressed wr w lg c hlive hvalid hadm
      rw [h1] at hrun
      exact absurd (congrArg Prod.snd hrun).symm
        (World.append_ne_self w lg.outputChannel text htext)
  · intro hwr
    constructor
    · intro hchg
      by_contra hadm
      exact hchg (by rw [run_suppressed wr w lg c hlive hvalid hadm])
    · intro hadm
      rw [run_admitted wr w lg c hlive hvalid hadm, emit_all_ok wr hwr]
      refine World.append_ne_self w lg.outputChannel _ ?_
      cases c <;> simp only [Call.lines] <;>
        exact genericLines_joined_ne_empty _ _ _ _ _ _

theorem gate_monotone_witness :
    (Call.printInfo (some "hi")).valid = true
      ∧ strictWorld.logger = some ⟨FILE.stdout, true, SP_LOGGER_LEVEL.SP_LOGGER_ERROR_LEVEL⟩
      ∧ SP_LOGGER_LEVEL.SP_LOGGER_ERROR_LEVEL.toInt
          ≤ SP_LOGGER_LEVEL.SP_LOGGER_DEBUG_INFO_WARNING_ERROR_LEVEL.toInt
      ∧ ((∀ o ∈ ([] : List WriteOutcome), o = WriteOutcome.ok) →
          (((Call.printInfo (some "hi")).run [] strictWorld).2 ≠ strictWorld ↔
            (Call.printInfo (some "hi")).minLevel.toInt
              ≤ SP_LOGGER_LEVEL.SP_LOGGER_ERROR_LEVEL.toInt))
      ∧ ((Call.printInfo (some "hi")).run [] strictWorld).2.content FILE.stdout = ""
      ∧ ((Call.printInfo (some "hi")).run [] demoWorld).2.content (FILE.file "log.txt")
          = "---INFO---\n- message: hi\n" :=
  ⟨rfl, rfl, by decide,
    (gate_monotone [] (Call.printInfo (some "hi")) _ _ strictWorld demoWorld rfl rfl rfl
      (by decide)).2,
    by decide, by decide⟩

/-- C17, the claim as stated fails: with the untitled tag and the flag `include_func_data`
set, the generic printer on the file-backed logger over an empty file writes the file,
function and line lines before the message line, not the message line alone. -/
theorem untitled_with_func_data_writes_metadata :
    (spLoggerPrintGenericMsg [] demoWorld .SP_LOGGER_NO_TITLE_MSG (some "hi") 1 (some "f.c")
        (some "g") 42).1 = SP_LOGGER_MSG.SP_LOGGER_SUCCESS
      ∧ (spLoggerPrintGenericMsg [] demoWorld .SP_LOGGER_NO_TITLE_MSG (some "hi") 1
          (some "f.c") (some "g") 42).2.content (FILE.file "log.txt")
          = "- file: f.c\n- function: g\n- line: 42\n- message: hi\n"
      ∧ (spLoggerPrintGenericMsg [] demoWorld .SP_LOGGER_NO_TITLE_MSG (some "hi") 1
          (some "f.c") (some "g") 42).2.content (FILE.file "log.txt")
          ≠ demoWorld.content (FILE.file "log.txt") ++ "- message: hi\n" := by
  decide

/-- C17, amended: with the untitled tag on a live logger, a present message and every write
succeeding, the generic printer returns `SP_LOGGER_SUCCESS` and writes no title line; with
`include_func_data` equal to 0 it appends the message line `- message: <msg>\n` alone,
whatever the call-site arguments are; with `include_func_data` set, `file` and `function`
present and `line >= 0`, it appends the file, function and line lines and then the
message line. -/
theorem untitled_generic_record (wr : List WriteOutcome) (w : World) (lg : sp_logger_t)
    (msg : String) (hlive : w.logger = some lg) (hwr : ∀ o ∈ wr, o = WriteOutcome.ok) :
    (∀ (file function : Option String) (line : Int),
        spLoggerPrintGenericMsg wr w .SP_LOGGER_NO_TITLE_MSG (some msg) 0 file function line
          = (SP_LOGGER_MSG.SP_LOGGER_SUCCESS,
              w.append lg.outputChannel ("- message: " ++ msg ++ "\n")))
      ∧ (∀ (include_func_data : Int) (file function : String) (line : Int),
        include_func_data ≠ 0 → 0 ≤ line →
        spLoggerPrintGenericMsg wr w .SP_LOGGER_NO_TITLE_MSG (some msg) include_func_data
            (some file) (some function) line
          = (SP_LOGGER_MSG.SP_LOGGER_SUCCESS,
              w.append lg.outputChannel ("- file: " ++ file ++ "\n- function: " ++ function
                ++ "\n- line: " ++ Nat.repr line.toNat ++ "\n- message: " ++ msg ++ "\n"))) := by
  have e1 : SP_LOGGER_MSG_FILE_SECTION ++ " " = "- file: " := by decide
  have e2 : SP_LOGGER_MSG_FUNC_SECTION ++ " " = "- function: " := by decide
  have e3 : SP_LOGGER_MSG_LINE_SECTION ++ " " = "- line: " := by decide
  have e4 : SP_LOGGER_MSG_MSG_SECTION ++ " " = "- message: " := by decide
  have f2 : "\n- function: " = "\n" ++ "- function: " := by decide
  have f3 : "\n- line: " = "\n" ++ "- line: " := by decide
  have f4 : "\n- message: " = "\n" ++ "- message: " := by decide
  constructor
  · intro file function line
    rw [spLoggerPrintGenericMsg_eq wr w lg _ (some msg) 0 file function line hlive (by simp),
      emit_all_ok wr hwr]
    simp only [genericLines, getMsgTitleByType, fmtS, Option.getD_some, e4, bne_self_eq_false,
      Bool.false_eq_true, if_false, List.nil_append, List.foldr, String.append_empty]
  · intro include_func_data file function line hinc hline
    rw [spLoggerPrintGenericMsg_eq wr w lg _ (some msg) include_func_data (some file)
      (some function) line hlive (by simp [not_lt.mpr hline]), emit_all_ok wr hwr]
    simp only [genericLines, getMsgTitleByType, fmtS, Option.getD_some, e1, e2, e3, e4,
      f2, f3, f4, fmtD_nonneg line hline, bne_iff_ne, ne_eq, hinc, not_false_eq_true,
      if_true, List.nil_append, List.cons_append, List.foldr, String.append_empty,
      String.append_assoc]

theorem untitled_generic_record_witness :
    demoWorld.logger = some ⟨FILE.file "log.txt", false,
        SP_LOGGER_LEVEL.SP_LOGGER_DEBUG_INFO_WARNING_ERROR_LEVEL⟩
      ∧ (∀ o ∈ [WriteOutcome.ok], o = WriteOutcome.ok)
      ∧ spLoggerPrintGenericMsg [.ok] demoWorld .SP_LOGGER_NO_TITLE_MSG (some "hi") 0
          (some "f.c") none (-3)
        = (SP_LOGGER_MSG.SP_LOGGER_SUCCESS,
            demoWorld.append (FILE.file "log.txt") ("- message: " ++ "hi" ++ "\n"))
      ∧ (spLoggerPrintGenericMsg [.ok] demoWorld .SP_LOGGER_NO_TITLE_MSG (some "hi") 0
          (some "f.c") none (-3)).2.content (FILE.file "log.txt") = "- message: hi\n" :=
  ⟨rfl, by decide,
    (untitled_generic_record [.ok] demoWorld _ "hi" rfl (by decide)).1 (some "f.c") none (-3),
    by decide⟩

/-- C18: a message operation, for every argument and whatever code it returns, leaves the
global `logger` as it was (its existence, its level, its `isStdOut` flag and its sink), opens
and closes no stream, and leaves the text of every stream other than the sink of the live
logger as it was; the same holds after any sequence of message operations, so after a
successful `spLoggerCreate` at level `L` followed by any such sequence the level of the
logger is `L`. -/
theorem message_operations_frame (w : World) (calls : List (List WriteOutcome × Call)) :
    (∀ (c : Call) (wr : List WriteOutcome),
        (c.run wr w).2.logger = w.logger ∧ (c.run wr w).2.opened = w.opened
          ∧ ∀ ch, (∀ lg, w.logger = some lg → ch ≠ lg.outputChannel) →
              (c.run wr w).2.content ch = w.content ch)
      ∧ (runCalls calls w).logger = w.logger
      ∧ (∀ (m o : Bool) (f : Option String) (L : SP_LOGGER_LEVEL),
          (spLoggerCreate m o w f L).1 = SP_LOGGER_MSG.SP_LOGGER_SUCCESS →
          (runCalls calls (spLoggerCreate m o w f L).2).logger.map (fun lg => lg.level)
            = some L) := by
  refine ⟨fun c wr => run_frame wr w c, (runCalls_logger calls w).1, fun m o f L h => ?_⟩
  rw [(runCalls_logger calls _).1]
  exact spLoggerCreate_success_level m o w f L h

/-! ## Write failures -/

end SPLogger

namespace SPPoint

/-! ## Auxiliary lemmas on the heap -/

theorem copy_step_list (cs buf : List Float) (i n : Nat) (x : Float) (hi : i < cs.length)
    (hb : i < buf.length) (hx : buf.get? i = some x) :
    (cs.set i x).take (i + 1) ++ (buf.drop (i + 1)).take n
      = cs.take i ++ (buf.drop i).take (n + 1) := by
  have hx2 : buf[i] = x := by
    rw [List.get?_eq_getElem?, List.getElem?_eq_getElem hb] at hx
    exact Option.some.inj hx
  rw [List.drop_eq_getElem_cons hb, List.take_succ_cons, hx2]
  rw [List.take_succ, List.set_take, List.set_eq_of_length_le (by simp)]
  simp [hi]

/-- The loop of lines 47-50 on a destination block that is not the source block: when both
blocks are long enough the loop returns, and the destination holds the source from the
counter on. -/
theorem copyLoop_ok (buf : List Float) (data coords : Nat) (hne : data ≠ coords) :
    ∀ (n i : Nat) (h : Heap) (cs : List Float), h.arrays data = some buf →
      h.arrays coords = some cs → i + n ≤ buf.length → cs.length = i + n →
      copyLoop h data coords i n =
        .ok { h with
          arrays :=
            (Function.update h.arrays coords (some (cs.take i ++ (buf.drop i).take n))) } := by
  intro n
  induction n with
  | zero =>
    intro i h cs hd hc hle hlen
    have htake : cs.take i = cs := List.take_of_length_le (by omega)
    simp only [copyLoop, List.take_zero, List.append_nil, htake, ← hc,
      Function.update_eq_self]
  | succ n ih =>
    intro i h cs hd hc hle hlen
    have hib : i < buf.length := by omega
    have hic : i < cs.length := by omega
    have hx : buf.get? i = some buf[i] := by
      rw [List.get?_eq_getElem?, List.getElem?_eq_getElem hib]
    have hic2 : ¬ cs.length ≤ i := by omega
    have hnot2 : ¬ ((i : Int) < 0) := not_lt.mpr (Int.ofNat_nonneg i)
    simp only [copyLoop, readDouble, hd, hnot2, if_false, Int.toNat_ofNat, hx, writeDouble,
      hc, hic2, or_self]
    have hd1 : (Function.update h.arrays coords (some (cs.set i buf[i]))) data = some buf := by
      rw [Function.update_noteq hne, hd]
    have hc1 : (Function.update h.arrays coords (some (cs.set i buf[i]))) coords
        = some (cs.set i buf[i]) := Function.update_same _ _ _
    have hstep := ih (i + 1)
      { h with arrays := Function.update h.arrays coords (some (cs.set i buf[i])) }
      (cs.set i buf[i]) hd1 hc1 (by omega) (by simp; omega)
    rw [hstep]
    simp only [Function.update_idem, copy_step_list cs buf i n buf[i] hic hib hx]

/-- Creation with both allocations succeeding, from a live buffer that holds at least `dim`
doubles. -/
theorem spPointCreate_ok (h : Heap) (d : Nat) (block : List Float) (dim index : Int)
    (hbuf : h.arrays d = some block) (hlen : dim.toNat ≤ block.length) (hd : d < h.next)
    (hdim : 0 < dim) (hindex : 0 ≤ index) :
    spPointCreate true true h (some d) dim index
      = .ok (some h.next, createdHeap h block dim index) := by
  have hne : d ≠ h.next + 1 := by omega
  have hcond : (decide (dim ≤ 0) || decide (index < 0)) = false := by
    simp [not_le.mpr hdim, not_lt.mpr hindex]
  have hloop := copyLoop_ok block d (h.next + 1) hne dim.toNat 0
    { points := Function.update (Function.update h.points h.next (some ⟨none, 0, 0⟩)) h.next
        (some ⟨some (h.next + 1), dim, index⟩),
      arrays := Function.update h.arrays (h.next + 1) (some (List.replicate dim.toNat 0)),
      next := h.next + 1 + 1 }
    (List.replicate dim.toNat 0)
    (by simp only [Function.update_noteq hne, hbuf])
    (by simp only [Function.update_same])
    (by omega) (by simp)
  simp only [spPointCreate, hcond, mallocPoint, mallocCoords, if_true, Bool.false_eq_true,
    if_false, Function.update_idem, Function.update_same]
  simp only [Function.update_idem] at hloop
  rw [hloop]
  simp [createdHeap, Function.update_idem]

theorem isPoint_unfold (h : Heap) (p : Nat) (hp : isPoint h p = true) :
    ∃ st a block, h.points p = some st ∧ st.coords = some a ∧ h.arrays a = some block
      ∧ 0 < st.dim ∧ 0 ≤ st.index ∧ block.length = st.dim.toNat ∧ p < h.next
      ∧ a < h.next := by
  unfold isPoint at hp
  cases hst : h.points p with
  | none => simp [hst] at hp
  | some st =>
    cases hc : st.coords with
    | none => simp [hst, hc] at hp
    | some a =>
      cases hb : h.arrays a with
      | none => simp [hst, hc, hb] at hp
      | some block =>
        simp only [hst, hc, hb, Bool.and_eq_true, decide_eq_true_eq] at hp
        obtain ⟨⟨⟨⟨h1, h2⟩, h3⟩, h4⟩, h5⟩ := hp
        exact ⟨st, a, block, rfl, hc, hb, h1, h2, h3, h4, h5⟩

/-- The coordinate getter on a point whose blocks are live. -/
theorem spPointGetAxisCoor_eq (h : Heap) (p : Nat) (st : sp_point_t) (a : Nat)
    (block : List Float) (axis : Int) (hp : h.points p = some st)
    (hc : st.coords = some a) (hb : h.arrays a = some block) :
    spPointGetAxisCoor h (some p) axis = axisRead block st.dim axis := by
  simp only [spPointGetAxisCoor, hp, hc, readDouble, hb, axisRead]
  by_cases h1 : axis < st.dim
  · by_cases h2 : axis < 0
    · simp only [h1, h2, if_true]
    · simp only [h1, h2, if_true, if_false]
  · simp only [h1, if_false]

/-- Reading inside the first `dim` doubles of a block, or failing the assertion, does not
see what comes after them. -/
theorem axisRead_take (block : List Float) (dim axis : Int) :
    axisRead (block.take dim.toNat) dim axis = axisRead block dim axis := by
  unfold axisRead
  by_cases h1 : axis < dim
  · by_cases h2 : axis < 0
    · simp only [h1, h2, if_true]
    · have hlt : axis.toNat < dim.toNat := by omega
      simp only [h1, h2, if_true, if_false, List.get?_eq_getElem?, List.getElem?_take, hlt]
  · simp only [h1, if_false]

/-- In range, the read returns the double the block holds at that place. -/
theorem axisRead_in_range (block : List Float) (dim axis : Int) (h0 : 0 ≤ axis)
    (h1 : axis < dim) (hlen : dim.toNat ≤ block.length) :
    ∃ x, block.get? axis.toNat = some x ∧ axisRead block dim axis = .ok x := by
  have hlt : axis.toNat < block.length := by omega
  refine ⟨block[axis.toNat], ?_, ?_⟩
  · rw [List.get?_eq_getElem?, List.getElem?_eq_getElem hlt]
  · simp only [axisRead, h1, if_true, not_lt.mpr h0, if_false, List.get?_eq_getElem?,
      List.getElem?_eq_getElem hlt]

/-- The getters see a point through its own two blocks only. -/
theorem getters_congr (h h2 : Heap) (c : Nat) (st : sp_point_t) (a : Nat)
    (hst : h.points c = some st) (hc : st.coords = some a)
    (hpts : h2.points c = h.points c) (harr : h2.arrays a = h.arrays a) :
    spPointGetDimension h2 (some c) = spPointGetDimension h (some c)
      ∧ spPointGetIndex h2 (some c) = spPointGetIndex h (some c)
      ∧ ∀ axis, spPointGetAxisCoor h2 (some c) axis = spPointGetAxisCoor h (some c) axis := by
  refine ⟨?_, ?_, fun axis => ?_⟩
  · simp only [spPointGetDimension, hpts]
  · simp only [spPointGetIndex, hpts]
  · simp only [spPointGetAxisCoor, hpts, hst, hc, readDouble, harr]

/-- Destruction of a point whose two blocks are live. -/
theorem spPointDestroy_ok (h : Heap) (p : Nat) (st : sp_point_t) (a : Nat)
    (block : List Float) (hst : h.points p = some st) (hc : st.coords = some a)
    (hb : h.arrays a = some block) :
    spPointDestroy h (some p)
      = .ok { points := Function.update h.points p none,
              arrays := Function.update h.arrays a none,
              next := h.next } := by
  simp only [spPointDestroy, hst, hc, freeCoords, hb, freePoint]

/-! ## Points -/

/-- C19: `spPointCreate(data, dim, index)` returns `NULL`, with the heap as it was, whenever
`data` is null, `dim <= 0` or `index < 0`, whatever the allocations would do; otherwise,
from a live buffer that holds at least `dim` doubles and with both allocations succeeding,
it returns a point `p` (a live point in the sense of `isPoint`) with
`spPointGetDimension(p) = dim`, `spPointGetIndex(p) = index` and
`spPointGetAxisCoor(p, i) = data[i]` for every `0 <= i < dim`. -/
theorem spPointCreate_spec (h : Heap) (dim index : Int) :
    (∀ (ok1 ok2 : Bool) (data : Option Nat), data = none ∨ dim ≤ 0 ∨ index < 0 →
        spPointCreate ok1 ok2 h data dim index = .ok (none, h))
      ∧ (∀ (d : Nat) (block : List Float), h.arrays d = some block →
          dim.toNat ≤ block.length → d < h.next → 0 < dim → 0 ≤ index →
          ∃ p h1, spPointCreate true true h (some d) dim index = .ok (some p, h1)
            ∧ isPoint h1 p = true
            ∧ spPointGetDimension h1 (some p) = .ok dim
            ∧ spPointGetIndex h1 (some p) = .ok index
            ∧ ∀ i, 0 ≤ i → i < dim →
                ∃ x, readDouble h d i = some x
                  ∧ spPointGetAxisCoor h1 (some p) i = .ok x) := by
  constructor
  · intro ok1 ok2 data hbad
    cases data with
    | none => rfl
    | some d =>
      have hcond : (decide (dim ≤ 0) || decide (index < 0)) = true := by
        rcases hbad with hb | hb | hb
        · exact absurd hb (by simp)
        · simp [hb]
        · simp [hb]
      simp only [spPointCreate, hcond, if_true]
  · intro d block hbuf hlen hd hdim hindex
    refine ⟨h.next, createdHeap h block dim index,
      spPointCreate_ok h d block dim index hbuf hlen hd hdim hindex, ?_, ?_, ?_, ?_⟩
    · have hpc : (createdHeap h block dim index).points h.next
          = some ⟨some (h.next + 1), dim, index⟩ := by simp [createdHeap]
      have hac : (createdHeap h block dim index).arrays (h.next + 1)
          = some (block.take dim.toNat) := by simp [createdHeap]
      have hnext : (createdHeap h block dim index).next = h.next + 2 := rfl
      simp only [isPoint, hpc, hac, hnext, List.length_take, Bool.and_eq_true,
        decide_eq_true_eq]
      exact ⟨⟨⟨⟨hdim, hindex⟩, min_eq_left hlen⟩, by omega⟩, by omega⟩
    · simp [spPointGetDimension, createdHeap]
    · simp [spPointGetIndex, createdHeap]
    · intro i hi0 hi1
      obtain ⟨x, hx, hread⟩ := axisRead_in_range block dim i hi0 hi1 hlen
      refine ⟨x, ?_, ?_⟩
      · simp only [readDouble, hbuf, not_lt.mpr hi0, if_false, hx]
      · rw [spPointGetAxisCoor_eq (createdHeap h block dim index) h.next
          ⟨some (h.next + 1), dim, index⟩ (h.next + 1) (block.take dim.toNat) i
          (by simp [createdHeap]) rfl (by simp [createdHeap]), axisRead_take]
        exact hread

theorem spPointCreate_spec_witness :
    spPointCreate true true bufferHeap none 2 7 = .ok (none, bufferHeap)
      ∧ spPointCreate true true bufferHeap (some 0) 0 7 = .ok (none, bufferHeap)
      ∧ spPointCreate true true bufferHeap (some 0) 2 (-1) = .ok (none, bufferHeap)
      ∧ spPointCreate true true bufferHeap (some 0) 2 7 = .ok (some 1, pointHeap)
      ∧ spPointGetDimension pointHeap (some 1) = .ok 2
      ∧ spPointGetIndex pointHeap (some 1) = .ok 7
      ∧ spPointGetAxisCoor pointHeap (some 1) 0 = .ok 1.5
      ∧ spPointGetAxisCoor pointHeap (some 1) 1 = .ok 2.5
      ∧ ∃ p h1, spPointCreate true true bufferHeap (some 0) 2 7 = .ok (some p, h1)
          ∧ isPoint h1 p = true
          ∧ spPointGetDimension h1 (some p) = .ok 2
          ∧ spPointGetIndex h1 (some p) = .ok 7
          ∧ ∀ i, 0 ≤ i → i < 2 →
              ∃ x, readDouble bufferHeap 0 i = some x
                ∧ spPointGetAxisCoor h1 (some p) i = .ok x :=
  ⟨(spPointCreate_spec bufferHeap 2 7).1 true true none (Or.inl rfl),
    (spPointCreate_spec bufferHeap 0 7).1 true true (some 0) (Or.inr (Or.inl (by decide))),
    (spPointCreate_spec bufferHeap 2 (-1)).1 true true (some 0)
      (Or.inr (Or.inr (by decide))),
    rfl, rfl, rfl, rfl, rfl,
    (spPointCreate_spec bufferHeap 2 7).2 0 [1.5, 2.5] rfl (by decide) (by decide)
      (by decide) (by decide)⟩

/-- C16: for every point `p`, with both allocations succeeding, `spPointCopy(p)` returns a
point at another address that has the dimension and the index of `p` and, on every axis,
returns from `spPointGetAxisCoor` what `p` returns (a stored coordinate for `0 <= axis <
dim`).  The copy is stored in blocks of its own: after `spPointDestroy(p)`, and after any
write to a coordinate of `p`, the three getters return on the copy what they returned
before. -/
theorem spPointCopy_independent (h : Heap) (p : Nat) (hp : isPoint h p = true) :
    ∃ c h1, spPointCopy true true h (some p) = .ok (some c, h1)
      ∧ c ≠ p ∧ isPoint h1 c = true
      ∧ spPointGetDimension h1 (some c) = spPointGetDimension h (some p)
      ∧ spPointGetIndex h1 (some c) = spPointGetIndex h (some p)
      ∧ (∀ axis, spPointGetAxisCoor h1 (some c) axis = spPointGetAxisCoor h (some p) axis)
      ∧ (∀ axis dim, spPointGetDimension h (some p) = .ok dim → 0 ≤ axis → axis < dim →
          ∃ x, spPointGetAxisCoor h1 (some c) axis = .ok x)
      ∧ (∃ h2, spPointDestroy h1 (some p) = .ok h2
          ∧ spPointGetDimension h2 (some c) = spPointGetDimension h1 (some c)
          ∧ spPointGetIndex h2 (some c) = spPointGetIndex h1 (some c)
          ∧ ∀ axis, spPointGetAxisCoor h2 (some c) axis = spPointGetAxisCoor h1 (some c) axis)
      ∧ (∀ st a i x h2, h1.points p = some st → st.coords = some a →
          writeDouble h1 a i x = some h2 →
          spPointGetDimension h2 (some c) = spPointGetDimension h1 (some c)
            ∧ spPointGetIndex h2 (some c) = spPointGetIndex h1 (some c)
            ∧ ∀ axis,
                spPointGetAxisCoor h2 (some c) axis = spPointGetAxisCoor h1 (some c) axis) := by
  obtain ⟨st, a, block, hst, hc, hb, hdim, hidx, hlen, hpn, han⟩ := isPoint_unfold h p hp
  have hcp : h.next ≠ p := by omega
  have hca : h.next + 1 ≠ a := by omega
  have h1pc : (createdHeap h block st.dim st.index).points h.next
      = some ⟨some (h.next + 1), st.dim, st.index⟩ := by simp [createdHeap]
  have h1ac : (createdHeap h block st.dim st.index).arrays (h.next + 1)
      = some (block.take st.dim.toNat) := by simp [createdHeap]
  have h1pp : (createdHeap h block st.dim st.index).points p = some st := by
    simp [createdHeap, Function.update_noteq hcp.symm, hst]
  have h1aa : (createdHeap h block st.dim st.index).arrays a = some block := by
    simp [createdHeap, Function.update_noteq hca.symm, hb]
  have haxis : ∀ axis, spPointGetAxisCoor (createdHeap h block st.dim st.index)
      (some h.next) axis = spPointGetAxisCoor h (some p) axis := by
    intro axis
    rw [spPointGetAxisCoor_eq _ h.next _ (h.next + 1) _ axis h1pc rfl h1ac,
      spPointGetAxisCoor_eq h p st a block axis hst hc hb, axisRead_take]
  refine ⟨h.next, createdHeap h block st.dim st.index, ?_, hcp, ?_, ?_, ?_, haxis, ?_, ?_, ?_⟩
  · simp only [spPointCopy, hst, hc]
    exact spPointCreate_ok h a block st.dim st.index hb (by omega) han hdim hidx
  · have hnext : (createdHeap h block st.dim st.index).next = h.next + 2 := rfl
    simp only [isPoint, h1pc, h1ac, hnext, List.length_take, Bool.and_eq_true,
      decide_eq_true_eq]
    exact ⟨⟨⟨⟨hdim, hidx⟩, by rw [hlen]; exact min_self _⟩, by omega⟩, by omega⟩
  · simp only [spPointGetDimension, h1pc, hst]
  · simp only [spPointGetIndex, h1pc, hst]
  · intro axis dim hd h0 h1
    have hdd : st.dim = dim := by
      simp only [spPointGetDimension, hst] at hd
      exact Except.ok.inj hd
    obtain ⟨x, _, hx⟩ := axisRead_in_range block st.dim axis h0 (by omega) (by omega)
    exact ⟨x, by rw [haxis, spPointGetAxisCoor_eq h p st a block axis hst hc hb, hx]⟩
  · refine ⟨_, spPointDestroy_ok _ p st a block h1pp hc h1aa, ?_⟩
    exact getters_congr _ _ h.next _ (h.next + 1) h1pc rfl
      (by simp only [Function.update_noteq hcp])
      (by simp only [Function.update_noteq hca])
  · intro st2 a2 i x h2 hst2 hc2 hw
    have hsteq : st2 = st := Option.some.inj (hst2.symm.trans h1pp)
    have haeq : a2 = a := by
      rw [hsteq, hc] at hc2
      exact (Option.some.inj hc2).symm
    rw [haeq] at hw
    simp only [writeDouble, h1aa] at hw
    by_cases hout : i < 0 ∨ block.length ≤ i.toNat
    · simp only [hout, if_true] at hw
      exact absurd hw (by simp)
    · simp only [hout, if_false] at hw
      have hh := Option.some.inj hw
      rw [← hh]
      exact getters_congr _ _ h.next _ (h.next + 1) h1pc rfl rfl
        (by simp only [Function.update_noteq hca])

theorem spPointCopy_independent_witness :
    isPoint pointHeap 1 = true
      ∧ spPointCopy true true pointHeap (some 1) = .ok (some 3, copyHeap)
      ∧ spPointGetAxisCoor copyHeap (some 3) 1 = .ok 2.5
      ∧ ∃ c h1, spPointCopy true true pointHeap (some 1) = .ok (some c, h1)
          ∧ c ≠ 1 ∧ isPoint h1 c = true
          ∧ spPointGetDimension h1 (some c) = spPointGetDimension pointHeap (some 1)
          ∧ spPointGetIndex h1 (some c) = spPointGetIndex pointHeap (some 1)
          ∧ (∀ axis,
              spPointGetAxisCoor h1 (some c) axis = spPointGetAxisCoor pointHeap (some 1) axis)
          ∧ (∀ axis dim, spPointGetDimension pointHeap (some 1) = .ok dim → 0 ≤ axis →
              axis < dim → ∃ x, spPointGetAxisCoor h1 (some c) axis = .ok x)
          ∧ (∃ h2, spPointDestroy h1 (some 1) = .ok h2
              ∧ spPointGetDimension h2 (some c) = spPointGetDimension h1 (some c)
              ∧ spPointGetIndex h2 (some c) = spPointGetIndex h1 (some c)
              ∧ ∀ axis,
                  spPointGetAxisCoor h2 (some c) axis = spPointGetAxisCoor h1 (some c) axis)
          ∧ (∀ st a i x h2, h1.points 1 = some st → st.coords = some a →
              writeDouble h1 a i x = some h2 →
              spPointGetDimension h2 (some c) = spPointGetDimension h1 (some c)
                ∧ spPointGetIndex h2 (some c) = spPointGetIndex h1 (some c)
                ∧ ∀ axis,
                    spPointGetAxisCoor h2 (some c) axis
                      = spPointGetAxisCoor h1 (some c) axis) :=
  ⟨rfl, rfl, rfl, spPointCopy_independent pointHeap 1 rfl⟩

/-- C20: the code evaluated where it departs from the claim.  On the point of dimension 2
at address 1 of `pointHeap`, the axis `-1` satisfies the assertion of line 114 (the point
is not null and `-1 < 2`), yet it is not in `0 <= axis < dim` and the read of line 116
falls outside the block of coordinates. -/
theorem spPointGetAxisCoor_negative_axis :
    isPoint pointHeap 1 = true
      ∧ spPointGetDimension pointHeap (some 1) = .ok 2
      ∧ (-1 : Int) < 2 ∧ ¬ (0 ≤ (-1 : Int))
      ∧ spPointGetAxisCoor pointHeap (some 1) (-1) = .error Fault.undefined
      ∧ spPointGetAxisCoor pointHeap (some 1) 2 = .error Fault.assertion :=
  ⟨rfl, rfl, by decide, by decide, rfl, rfl⟩

end SPPoint
